import Mathlib

/-!
SoftwareRasterizer: a shallow embedding of `Source.cpp` and `parser.h`.

The C++ `float` values are modelled by rationals (exact arithmetic), so rounding,
infinities and NaN are outside the model.  Conversions from `float` to an integer
type truncate toward zero and are undefined in C++ when the truncated value does
not fit the target type: such conversions, like reads and writes outside a
buffer and a failed `Assert`, make the modelled function return `none`.  Arithmetic on
`uint32_t` is reduced modulo `2 ^ 32`; the sizes of the vertex and index buffers are
taken to fit `uint32_t`.

The libraries that the two files call (glm, tinyobjloader, stb_image) are not part of
the embedded source: the glm operations are modelled as the operations of linear
algebra, and the results of `tinyobj::LoadObj` and `stbi_load` are parameters of
`InitializeSceneObjects`.
-/

namespace SoftwareRasterizer

/-! ## glm vectors and matrices -/

/-- The type `glm::vec2`, with the texture-coordinate member names `s`, `t`. -/
structure Vec2 where
  s : ℚ
  t : ℚ
deriving DecidableEq

/-- The type `glm::vec3`. -/
structure Vec3 where
  x : ℚ
  y : ℚ
  z : ℚ
deriving DecidableEq

/-- The type `glm::vec4`. -/
structure Vec4 where
  x : ℚ
  y : ℚ
  z : ℚ
  w : ℚ
deriving DecidableEq

/-- The type `glm::mat3`, stored by columns: `c0` is `M[0]`, `c1` is `M[1]`, `c2` is `M[2]`,
and `M[c][r]` is component `r` of column `c`. -/
structure Mat3 where
  c0 : Vec3
  c1 : Vec3
  c2 : Vec3
deriving DecidableEq

/-- The type `glm::mat4`, stored by columns. -/
structure Mat4 where
  c0 : Vec4
  c1 : Vec4
  c2 : Vec4
  c3 : Vec4
deriving DecidableEq

/-- Modelled from the spec: the glm operators are not under `src/`.  Quotient `V / d` of a
`glm::vec3` by a scalar, componentwise (the division by `|a|+|b|` of section 4.3). -/
def Vec3.divScalar (V : Vec3) (d : ℚ) : Vec3 := ⟨V.x / d, V.y / d, V.z / d⟩

/-- Modelled from the spec: `glm::determinant` is not under `src/`.  The determinant of
the 3 x 3 matrix (section 4.3, "Compute its determinant"), by cofactor expansion, with
`m[c][r]` written as component `r` of column `c`. -/
def determinant (m : Mat3) : ℚ :=
  m.c0.x * (m.c1.y * m.c2.z - m.c2.y * m.c1.z)
    - m.c1.x * (m.c0.y * m.c2.z - m.c2.y * m.c0.z)
    + m.c2.x * (m.c0.y * m.c1.z - m.c1.y * m.c0.z)

/-- Modelled from the spec: `glm::inverse` is not under `src/`.  The inverse of the 3 x 3
matrix (section 4.3, "invert the matrix"): the adjugate times the reciprocal of the
determinant.  The lemma `mulVec_inverse_dot` checks that it is the matrix inverse. -/
def inverse (m : Mat3) : Mat3 :=
  let OneOverDeterminant : ℚ := 1 / determinant m
  { c0 := ⟨(m.c1.y * m.c2.z - m.c2.y * m.c1.z) * OneOverDeterminant,
           -(m.c0.y * m.c2.z - m.c2.y * m.c0.z) * OneOverDeterminant,
           (m.c0.y * m.c1.z - m.c1.y * m.c0.z) * OneOverDeterminant⟩
    c1 := ⟨-(m.c1.x * m.c2.z - m.c2.x * m.c1.z) * OneOverDeterminant,
           (m.c0.x * m.c2.z - m.c2.x * m.c0.z) * OneOverDeterminant,
           -(m.c0.x * m.c1.z - m.c1.x * m.c0.z) * OneOverDeterminant⟩
    c2 := ⟨(m.c1.x * m.c2.y - m.c2.x * m.c1.y) * OneOverDeterminant,
           -(m.c0.x * m.c2.y - m.c2.x * m.c0.y) * OneOverDeterminant,
           (m.c0.x * m.c1.y - m.c1.x * m.c0.y) * OneOverDeterminant⟩ }

/-- Modelled from the spec: the glm operators are not under `src/`.  Product `M * v` of a
`glm::mat3` and a `glm::vec3` (section 4.3, "multiplying the inverse matrix by per-vertex
attribute triples"): the combination of the columns of `M` with the components of `v`. -/
def Mat3.mulVec (m : Mat3) (v : Vec3) : Vec3 :=
  ⟨m.c0.x * v.x + m.c1.x * v.y + m.c2.x * v.z,
   m.c0.y * v.x + m.c1.y * v.y + m.c2.y * v.z,
   m.c0.z * v.x + m.c1.z * v.y + m.c2.z * v.z⟩

/-- Modelled from the spec: the glm operators are not under `src/`.  Product `M * v` of a
`glm::mat4` and a `glm::vec4` (section 4.1, "matrix x homogeneous position"). -/
def Mat4.mulVec (m : Mat4) (v : Vec4) : Vec4 :=
  ⟨m.c0.x * v.x + m.c1.x * v.y + m.c2.x * v.z + m.c3.x * v.w,
   m.c0.y * v.x + m.c1.y * v.y + m.c2.y * v.z + m.c3.y * v.w,
   m.c0.z * v.x + m.c1.z * v.y + m.c2.z * v.z + m.c3.z * v.w,
   m.c0.w * v.x + m.c1.w * v.y + m.c2.w * v.z + m.c3.w * v.w⟩

/-! ## Source.cpp: constants and the edge function -/

/-- The constant `ScreenWidth` of `Source.cpp`. -/
def ScreenWidth : ℕ := 960

/-- The constant `ScreenHeight` of `Source.cpp`. -/
def ScreenHeight : ℕ := 540

/-- The macro `TO_RASTER` of `Source.cpp`. -/
def TO_RASTER (V : Vec4) : Vec4 :=
  ⟨(ScreenWidth : ℚ) * (V.x + V.w) / 2, (ScreenHeight : ℚ) * (V.w - V.y) / 2, V.z, V.w⟩

/-- The function `EdgeFunction` of `Source.cpp`: the edge equation `E` evaluated at
`Sample`, with the tie-breaking tests of the source in the source's order. -/
def EdgeFunction (E Sample : Vec3) : Bool :=
  let Result : ℚ := (E.x * Sample.x) + (E.y * Sample.y) + E.z
  if Result > 0 then true
  else if Result < 0 then false
  else if E.x > 0 then true
  else if E.x < 0 then false
  else if (E.x = 0) ∧ (E.y < 0) then false
  else true

/-! ## parser.h: the data model -/

/-- The struct `vertex_input` of `parser.h`. -/
structure vertex_input where
  Pos : Vec3
  Normal : Vec3
  TexCoords : Vec2
deriving DecidableEq

/-- The struct `fragment_input` of `parser.h`. -/
structure fragment_input where
  Normal : Vec3
  TexCoords : Vec2
deriving DecidableEq

/-- The struct `texture` of `parser.h`: `m_Data` is the byte buffer behind the pointer
(empty for a null pointer); the three dimensions are `int32_t` fields. -/
structure texture where
  m_Data : List (Fin 256)
  m_Width : ℤ
  m_Height : ℤ
  m_NumChannels : ℤ
deriving DecidableEq

/-- The struct `Mesh` of `parser.h`. -/
structure Mesh where
  MIdxOffset : ℕ
  MIdxCount : ℕ
  MDiffuseTexName : String
deriving DecidableEq

/-! ## Source.cpp: vertex and fragment stages -/

/-- The function `VS` of `Source.cpp`.  `Output` is passed by reference: the function
returns the clip-space position together with the updated `Output`. -/
def VS (Input : vertex_input) (MVP : Mat4) (Output : fragment_input) : Vec4 × fragment_input :=
  let Output : fragment_input := { Output with TexCoords := Input.TexCoords }
  let Result : Vec4 := MVP.mulVec ⟨Input.Pos.x, Input.Pos.y, Input.Pos.z, 1⟩
  (Result, Output)

/-- Truncation toward zero, the rounding of a C++ conversion from `float` to an integer type. -/
def truncate (q : ℚ) : ℤ := if 0 ≤ q then ⌊q⌋ else ⌈q⌉

/-- The conversion `(int64_t)(q)`: undefined (`none`) when the truncated value is not an `int64_t`. -/
def castInt64 (q : ℚ) : Option ℤ :=
  if -(2 : ℤ) ^ 63 ≤ truncate q ∧ truncate q < (2 : ℤ) ^ 63 then some (truncate q) else none

/-- The conversion `(uint32_t)(q)`: undefined (`none`) when the truncated value is not a `uint32_t`. -/
def castUInt32 (q : ℚ) : Option ℕ :=
  if 0 ≤ truncate q ∧ truncate q < (2 : ℤ) ^ 32 then some (truncate q).toNat else none

/-- The implicit conversion of an `int32_t` operand to `uint32_t` (reduction modulo `2 ^ 32`). -/
def toUInt32 (i : ℤ) : ℕ := (i % (2 : ℤ) ^ 32).toNat

/-- Lines 56-57 of `FS`: the texel column `idxS` and row `idxT`. -/
def texelIndices (Input : fragment_input) (pTexture : texture) : Option (ℕ × ℕ) :=
  match castInt64 Input.TexCoords.s with
  | none => none
  | some wholeS =>
    match castUInt32 ((Input.TexCoords.s - (wholeS : ℚ)) * (pTexture.m_Width : ℚ) - 1 / 2) with
    | none => none
    | some idxS =>
      match castInt64 Input.TexCoords.t with
      | none => none
      | some wholeT =>
        match castUInt32 ((Input.TexCoords.t - (wholeT : ℚ)) * (pTexture.m_Height : ℚ) - 1 / 2) with
        | none => none
        | some idxT => some (idxS, idxT)

/-- Line 58 of `FS`: `TexelLocation`, computed in `uint32_t` arithmetic. -/
def texelLocation (idxS idxT : ℕ) (pTexture : texture) : ℕ :=
  (((idxT * toUInt32 pTexture.m_Width + idxS) % 2 ^ 32) * toUInt32 pTexture.m_NumChannels) % 2 ^ 32

/-- The function `FS` of `Source.cpp`: `none` when a conversion is undefined or a byte
is read outside `m_Data`. -/
def FS (Input : fragment_input) (pTexture : texture) : Option Vec3 :=
  match texelIndices Input pTexture with
  | none => none
  | some (idxS, idxT) =>
    let TexelLocation : ℕ := texelLocation idxS idxT pTexture
    let OneOver255 : ℚ := 1 / 255
    match pTexture.m_Data[TexelLocation]?,
          pTexture.m_Data[(TexelLocation + 1) % 2 ^ 32]?,
          pTexture.m_Data[(TexelLocation + 2) % 2 ^ 32]? with
    | some r, some g, some b =>
      some ⟨(r.val : ℚ) * OneOver255, (g.val : ℚ) * OneOver255, (b.val : ℚ) * OneOver255⟩
    | _, _, _ => none

/-! ## Source.cpp: triangle setup -/

/-- The matrix `M` of lines 126-131, built from the three raster vertices. -/
def vertexMatrix (V0Homogen V1Homogen V2Homogen : Vec4) : Mat3 :=
  { c0 := ⟨V0Homogen.x, V1Homogen.x, V2Homogen.x⟩
    c1 := ⟨V0Homogen.y, V1Homogen.y, V2Homogen.y⟩
    c2 := ⟨V0Homogen.w, V1Homogen.w, V2Homogen.w⟩ }

/-- The per-triangle values that the coverage scan reads: the three edge functions
and the interpolation vectors, named as the locals of `main`. -/
structure TriangleSetup where
  E0 : Vec3
  E1 : Vec3
  E2 : Vec3
  C : Vec3
  Z : Vec3
  PNX : Vec3
  PNY : Vec3
  PNZ : Vec3
  PUVS : Vec3
  PUVT : Vec3
deriving DecidableEq

/-- Lines 113-160 of `main`: vertex stage, viewport transform, determinant test and
the set-up of the edge functions and interpolation vectors.  `FI0`, `FI1`, `FI2` are
the contents of the uninitialised locals before `VS` runs.  The result is `none`
when the determinant test takes the `continue` branch. -/
def triangleSetup (MVP : Mat4) (VI0 VI1 VI2 : vertex_input) (FI0 FI1 FI2 : fragment_input) :
    Option TriangleSetup :=
  let (V0Clip, FI0) := VS VI0 MVP FI0
  let (V1Clip, FI1) := VS VI1 MVP FI1
  let (V2Clip, FI2) := VS VI2 MVP FI2
  let V0Homogen := TO_RASTER V0Clip
  let V1Homogen := TO_RASTER V1Clip
  let V2Homogen := TO_RASTER V2Clip
  let M := vertexMatrix V0Homogen V1Homogen V2Homogen
  let Det := determinant M
  if Det ≥ 0 then none
  else
    let M := inverse M
    some
      { E0 := M.c0.divScalar (|M.c0.x| + |M.c0.y|)
        E1 := M.c1.divScalar (|M.c1.x| + |M.c1.y|)
        E2 := M.c2.divScalar (|M.c2.x| + |M.c2.y|)
        C := M.mulVec ⟨1, 1, 1⟩
        Z := M.mulVec ⟨V0Clip.z, V1Clip.z, V2Clip.z⟩
        PNX := M.mulVec ⟨FI0.Normal.x, FI1.Normal.x, FI2.Normal.x⟩
        PNY := M.mulVec ⟨FI0.Normal.y, FI1.Normal.y, FI2.Normal.y⟩
        PNZ := M.mulVec ⟨FI0.Normal.z, FI1.Normal.z, FI2.Normal.z⟩
        PUVS := M.mulVec ⟨FI0.TexCoords.s, FI1.TexCoords.s, FI2.TexCoords.s⟩
        PUVT := M.mulVec ⟨FI0.TexCoords.t, FI1.TexCoords.t, FI2.TexCoords.t⟩ }

/-! ## Source.cpp: coverage scan -/

/-- The two buffers of `main`. -/
structure Buffers where
  FrameBuffer : List Vec3
  DepthBuffer : List ℚ
deriving DecidableEq

/-- The constant `FLT_MAX`. -/
def FLT_MAX : ℚ := 340282346638528859811704183484516925440

/-- Lines 72-73 of `main`: the buffers as allocated. -/
def initialBuffers : Buffers :=
  { FrameBuffer := List.replicate (ScreenWidth * ScreenHeight) ⟨0, 0, 0⟩
    DepthBuffer := List.replicate (ScreenWidth * ScreenHeight) FLT_MAX }

/-- Lines 174-178: the interpolated depth `Z` at a sample. -/
def fragmentDepth (S : TriangleSetup) (SampleLocation : Vec3) : ℚ :=
  let OneOverW : ℚ := (S.C.x * SampleLocation.x) + (S.C.y * SampleLocation.y) + S.C.z
  let W : ℚ := 1 / OneOverW
  let ZOverW : ℚ := (S.Z.x * SampleLocation.x) + (S.Z.y * SampleLocation.y) + S.Z.z
  ZOverW * W

/-- Lines 174-175 and 184-193: the fragment-shader input `FSInput` at a sample. -/
def fragmentInput (S : TriangleSetup) (SampleLocation : Vec3) : fragment_input :=
  let OneOverW : ℚ := (S.C.x * SampleLocation.x) + (S.C.y * SampleLocation.y) + S.C.z
  let W : ℚ := 1 / OneOverW
  let nxOverW : ℚ := (S.PNX.x * SampleLocation.x) + (S.PNX.y * SampleLocation.y) + S.PNX.z
  let nyOverW : ℚ := (S.PNY.x * SampleLocation.x) + (S.PNY.y * SampleLocation.y) + S.PNY.z
  let nzOverW : ℚ := (S.PNZ.x * SampleLocation.x) + (S.PNZ.y * SampleLocation.y) + S.PNZ.z
  let uOverW : ℚ := (S.PUVS.x * SampleLocation.x) + (S.PUVS.y * SampleLocation.y) + S.PUVS.z
  let vOverW : ℚ := (S.PUVT.x * SampleLocation.x) + (S.PUVT.y * SampleLocation.y) + S.PUVT.z
  { Normal := ⟨nxOverW * W, nyOverW * W, nzOverW * W⟩
    TexCoords := ⟨uOverW * W, vOverW * W⟩ }

/-- The sample location of pixel `(X, Y)` (line 166). -/
def sampleLocation (X Y : ℕ) : Vec3 := ⟨(X : ℚ) + 1 / 2, (Y : ℚ) + 1 / 2, 1⟩

/-- Lines 166-198 of `main`: the body of the inner loop for pixel `(X, Y)`.  The
result is `none` when a buffer is accessed out of range or `FS` is undefined. -/
def shadePixel (S : TriangleSetup) (pTexture : texture) (Y X : ℕ) (B : Buffers) :
    Option Buffers :=
  let SampleLocation : Vec3 := sampleLocation X Y
  let Inside0 := EdgeFunction S.E0 SampleLocation
  let Inside1 := EdgeFunction S.E1 SampleLocation
  let Inside2 := EdgeFunction S.E2 SampleLocation
  if Inside0 && Inside1 && Inside2 then
    let Z : ℚ := fragmentDepth S SampleLocation
    match B.DepthBuffer[Y * ScreenWidth + X]? with
    | none => none
    | some Depth =>
      if Z ≤ Depth then
        let DepthBuffer := B.DepthBuffer.set (Y * ScreenWidth + X) Z
        match FS (fragmentInput S SampleLocation) pTexture with
        | none => none
        | some OutputColor =>
          if Y * ScreenWidth + X < B.FrameBuffer.length then
            some { FrameBuffer := B.FrameBuffer.set (Y * ScreenWidth + X) OutputColor
                   DepthBuffer := DepthBuffer }
          else none
      else some B
  else some B

/-- Lines 164-199: the inner loop over `X` for one row `Y`. -/
def scanRow (S : TriangleSetup) (pTexture : texture) (B : Buffers) (Y : ℕ) : Option Buffers :=
  (List.range ScreenWidth).foldlM (fun B X => shadePixel S pTexture Y X B) B

/-- Lines 162-200: the full-frame coverage scan of one triangle. -/
def scanTriangle (S : TriangleSetup) (pTexture : texture) (B : Buffers) : Option Buffers :=
  (List.range ScreenHeight).foldlM (scanRow S pTexture) B

/-- Lines 113-200: one triangle, from the vertex stage to the end of its scan.  A
triangle that fails the determinant test leaves the buffers as they are. -/
def processTriangle (MVP : Mat4) (VI0 VI1 VI2 : vertex_input) (FI0 FI1 FI2 : fragment_input)
    (pTexture : texture) (B : Buffers) : Option Buffers :=
  match triangleSetup MVP VI0 VI1 VI2 FI0 FI1 FI2 with
  | none => some B
  | some S => scanTriangle S pTexture B

/-- Lines 109-200: the body of the triangle loop for triangle `Idx` of `mesh`; the
three vertices are fetched through the index buffer (`none` when out of range). -/
def drawTriangle (MVP : Mat4) (VertexBuffer : List vertex_input) (IndexBuffer : List ℕ)
    (mesh : Mesh) (pTexture : texture) (FI0 FI1 FI2 : fragment_input) (B : Buffers) (Idx : ℕ) :
    Option Buffers :=
  match IndexBuffer[(mesh.MIdxOffset + (Idx * 3)) % 2 ^ 32]?,
        IndexBuffer[(mesh.MIdxOffset + (Idx * 3 + 1)) % 2 ^ 32]?,
        IndexBuffer[(mesh.MIdxOffset + (Idx * 3 + 2)) % 2 ^ 32]? with
  | some i0, some i1, some i2 =>
    match VertexBuffer[i0]?, VertexBuffer[i1]?, VertexBuffer[i2]? with
    | some VI0, some VI1, some VI2 => processTriangle MVP VI0 VI1 VI2 FI0 FI1 FI2 pTexture B
    | _, _, _ => none
  | _, _, _ => none

/-- Lines 101-201: the body of the mesh loop.  `Textures` is the texture registry;
a name that is not a key gives a null pointer, on which `Assert` stops the program
(`none`). -/
def drawMesh (MVP : Mat4) (VertexBuffer : List vertex_input) (IndexBuffer : List ℕ)
    (Textures : List (String × texture)) (FI0 FI1 FI2 : fragment_input) (B : Buffers)
    (mesh : Mesh) : Option Buffers :=
  match Textures.lookup mesh.MDiffuseTexName with
  | none => none
  | some pTexture =>
    let TriCount : ℕ := mesh.MIdxCount / 3
    (List.range TriCount).foldlM
      (drawTriangle MVP VertexBuffer IndexBuffer mesh pTexture FI0 FI1 FI2) B

/-- Lines 99-202: the render loop over all meshes, in the order of `Primitives`. -/
def render (MVP : Mat4) (Primitives : List Mesh) (VertexBuffer : List vertex_input)
    (IndexBuffer : List ℕ) (Textures : List (String × texture)) (FI0 FI1 FI2 : fragment_input)
    (B : Buffers) : Option Buffers :=
  Primitives.foldlM (drawMesh MVP VertexBuffer IndexBuffer Textures FI0 FI1 FI2) B

/-! ## Source.cpp: image output -/

/-- Modelled from the spec: `tinyobj::index_t` is not under `src/`.  The three indices of
one face corner that `parser.h` reads (section 6, scene loader); each is a C `int`, `-1`
when absent. -/
structure index_t where
  vertex_index : ℤ
  normal_index : ℤ
  texcoord_index : ℤ
deriving DecidableEq

/-- Modelled from the spec: `tinyobj::attrib_t` is not under `src/`.  The flat attribute
arrays that `parser.h` reads. -/
structure attrib_t where
  vertices : List ℚ
  normals : List ℚ
  texcoords : List ℚ
deriving DecidableEq

/-- Modelled from the spec: `tinyobj::shape_t` is not under `src/`.  The members
`mesh.indices` and `mesh.material_ids` that `parser.h` reads. -/
structure shape_t where
  indices : List index_t
  material_ids : List ℤ
deriving DecidableEq

/-- Modelled from the spec: `tinyobj::material_t` is not under `src/`.  The member
`diffuse_texname` that `parser.h` reads. -/
structure material_t where
  diffuse_texname : String
deriving DecidableEq

/-- The local struct `IndexedPrimitive` of `InitializeSceneObjects`: three `uint32_t`. -/
structure IndexedPrimitive where
  PosIdx : ℕ
  NormalIdx : ℕ
  UVIdx : ℕ
deriving DecidableEq

/-- The constant `UINT32_MAX`. -/
def UINT32_MAX : ℕ := 4294967295

/-- The four bytes of a `uint32_t` in memory, least significant first. -/
def bytesOfUInt32 (n : ℕ) : List ℕ :=
  [n % 256, n / 256 % 256, n / 65536 % 256, n / 16777216 % 256]

/-- The twelve bytes of an `IndexedPrimitive` in memory. -/
def IndexedPrimitive.bytes (p : IndexedPrimitive) : List ℕ :=
  bytesOfUInt32 p.PosIdx ++ bytesOfUInt32 p.NormalIdx ++ bytesOfUInt32 p.UVIdx

/-- The C function `memcmp` on two byte sequences of the same length: the sign of the
difference at the first byte where they differ, `0` when they do not differ. -/
def memcmp : List ℕ → List ℕ → ℤ
  | a :: as, b :: bs => if a < b then -1 else if b < a then 1 else memcmp as bs
  | _, _ => 0

/-- The member `operator<` of `IndexedPrimitive` (line 94-97): `memcmp(this, &other) > 0`. -/
def IndexedPrimitive.less (a b : IndexedPrimitive) : Bool :=
  decide (memcmp a.bytes b.bytes > 0)

/-- The call `indexedPrims.find(prim)` on the `std::map` ordered by `operator<`: the entry
whose key is equivalent to `prim` (neither is less than the other), if there is one.  The
map is kept as the list of its entries in the order of insertion. -/
def mapFind (indexedPrims : List (IndexedPrimitive × ℕ)) (prim : IndexedPrimitive) :
    Option (IndexedPrimitive × ℕ) :=
  indexedPrims.find? (fun e => !(IndexedPrimitive.less prim e.1) && !(IndexedPrimitive.less e.1 prim))

/-- The element `arr[i]` of an attribute array for an index `i` computed in `int`:
undefined (`none`) when `i` is negative, not an `int`, or outside the array. -/
def readAttrib (arr : List ℚ) (i : ℤ) : Option ℚ :=
  if 0 ≤ i ∧ i < (2 : ℤ) ^ 31 then arr[i.toNat]? else none

/-- Lines 138-142: the position of a new vertex. -/
def readPosition (attribs : attrib_t) (index : index_t) : Option Vec3 :=
  match readAttrib attribs.vertices (3 * index.vertex_index),
        readAttrib attribs.vertices (3 * index.vertex_index + 1),
        readAttrib attribs.vertices (3 * index.vertex_index + 2) with
  | some vx, some vy, some vz => some ⟨vx, vy, vz⟩
  | _, _, _ => none

/-- Lines 144-154: the normal of a new vertex, zero when there is no normal index. -/
def readNormal (attribs : attrib_t) (index : index_t) : Option Vec3 :=
  let hasNormals : Bool := decide (index.normal_index ≠ -1)
  if hasNormals then
    match readAttrib attribs.normals (3 * index.normal_index),
          readAttrib attribs.normals (3 * index.normal_index + 1),
          readAttrib attribs.normals (3 * index.normal_index + 2) with
    | some nx, some ny, some nz => some ⟨nx, ny, nz⟩
    | _, _, _ => none
  else some ⟨0, 0, 0⟩

/-- Lines 156-164: the texture coordinate of a new vertex, zero when there is no
texture-coordinate index. -/
def readUV (attribs : attrib_t) (index : index_t) : Option Vec2 :=
  let hasUV : Bool := decide (index.texcoord_index ≠ -1)
  if hasUV then
    match readAttrib attribs.texcoords (2 * index.texcoord_index),
          readAttrib attribs.texcoords (2 * index.texcoord_index + 1) with
    | some ux, some ty =>
      let uy : ℚ := 1 - ty
      some ⟨|ux|, |uy|⟩
    | _, _ => none
  else some ⟨0, 0⟩

/-- Lines 138-166: the `uniqueVertex` built for an index triple. -/
def buildVertex (attribs : attrib_t) (index : index_t) : Option vertex_input :=
  match readPosition attribs index, readNormal attribs index, readUV attribs index with
  | some pos, some normal, some uv => some ⟨pos, normal, uv⟩
  | _, _, _ => none

/-- Lines 120-123: the `IndexedPrimitive` of an index triple. -/
def primOf (index : index_t) : IndexedPrimitive :=
  let hasNormals : Bool := decide (index.normal_index ≠ -1)
  let hasUV : Bool := decide (index.texcoord_index ≠ -1)
  { PosIdx := toUInt32 index.vertex_index
    NormalIdx := if hasNormals then toUInt32 index.normal_index else UINT32_MAX
    UVIdx := if hasUV then toUInt32 index.texcoord_index else UINT32_MAX }

/-- The buffers and the map that the vertex processing of `InitializeSceneObjects`
updates.  The sizes of the buffers are taken to fit `uint32_t`, so that `newIdx`,
`meshIdxBase` and `MIdxCount` are the sizes themselves. -/
structure LoaderState where
  VertexBuffer : List vertex_input
  IndexBuffer : List ℕ
  indexedPrims : List (IndexedPrimitive × ℕ)
deriving DecidableEq

/-- Lines 108-168: the body of the loop over the indices of a shape.  The result is
`none` when the `Assert` on the vertex index fails or an attribute is read out of range. -/
def processIndex (attribs : attrib_t) (st : LoaderState) (index : index_t) :
    Option LoaderState :=
  let vtxIdx : ℤ := index.vertex_index
  if vtxIdx = -1 then none
  else
    let prim : IndexedPrimitive := primOf index
    match mapFind st.indexedPrims prim with
    | some res => some { st with IndexBuffer := st.IndexBuffer ++ [res.2] }
    | none =>
      let newIdx : ℕ := st.VertexBuffer.length
      match buildVertex attribs index with
      | none => none
      | some uniqueVertex =>
        some { VertexBuffer := st.VertexBuffer ++ [uniqueVertex]
               IndexBuffer := st.IndexBuffer ++ [newIdx]
               indexedPrims := st.indexedPrims ++ [(prim, newIdx)] }

/-- Lines 103-179: the body of the loop over the shapes.  The result is `none` when an
index of the shape fails, when `material_ids[0]` does not exist or is `-1` (`Assert`), or
when it is not an index of `materials`. -/
def processShape (attribs : attrib_t) (materials : List material_t)
    (acc : LoaderState × List Mesh) (shape : shape_t) : Option (LoaderState × List Mesh) :=
  let meshIdxBase : ℕ := acc.1.IndexBuffer.length
  match shape.indices.foldlM (processIndex attribs) acc.1 with
  | none => none
  | some st =>
    match shape.material_ids[0]? with
    | none => none
    | some id =>
      if id = -1 then none
      else
        match (if 0 ≤ id then materials[id.toNat]? else none) with
        | none => none
        | some m =>
          let mesh : Mesh :=
            { MIdxOffset := meshIdxBase
              MIdxCount := shape.indices.length
              MDiffuseTexName := m.diffuse_texname }
          some (st, acc.2 ++ [mesh])

/-- Lines 66-82: the loop over the materials.  `loadImage` stands for `stbi_load`, which
is not under `src/`: it gives the texture loaded for a file name. -/
def loadTextures (loadImage : String → texture) (Textures : List (String × texture))
    (materials : List material_t) : List (String × texture) :=
  materials.foldl
    (fun Textures m =>
      match Textures.lookup m.diffuse_texname with
      | some _ => Textures
      | none => Textures ++ [(m.diffuse_texname, loadImage m.diffuse_texname)])
    Textures

/-- What `InitializeSceneObjects` leaves in its four reference parameters. -/
structure Scene where
  MeshBuffer : List Mesh
  VertexBuffer : List vertex_input
  IndexBuffer : List ℕ
  Textures : List (String × texture)
deriving DecidableEq

/-- The function `InitializeSceneObjects` of `parser.h`.  `loaded` stands for the result
of `tinyobj::LoadObj`, which is not under `src/`: `none` when it returns false (the
function then stops at `Assert(false)`), otherwise the attributes, shapes and materials it
produced. -/
def InitializeSceneObjects (loaded : Option (attrib_t × List shape_t × List material_t))
    (loadImage : String → texture) (MeshBuffer : List Mesh) (VertexBuffer : List vertex_input)
    (IndexBuffer : List ℕ) (Textures : List (String × texture)) : Option Scene :=
  match loaded with
  | none => none
  | some (attribs, shapes, materials) =>
    let Textures := loadTextures loadImage Textures materials
    match shapes.foldlM (processShape attribs materials)
        ({ VertexBuffer := VertexBuffer, IndexBuffer := IndexBuffer, indexedPrims := [] },
          MeshBuffer) with
    | none => none
    | some (st, meshes) =>
      some { MeshBuffer := meshes
             VertexBuffer := st.VertexBuffer
             IndexBuffer := st.IndexBuffer
             Textures := Textures }

/-! ## Auxiliary definitions used in the statements -/

/-- The value `E.x * Sample.x + E.y * Sample.y + E.z` that `EdgeFunction` tests. -/
def edgeValue (E Sample : Vec3) : ℚ := (E.x * Sample.x) + (E.y * Sample.y) + E.z

/-- The clip-space position `VjClip` that `VS` returns for a vertex. -/
def clipPosition (MVP : Mat4) (VI : vertex_input) (FI : fragment_input) : Vec4 := (VS VI MVP FI).1

/-- The raster-space position `VjHomogen` of a vertex. -/
def rasterPosition (MVP : Mat4) (VI : vertex_input) (FI : fragment_input) : Vec4 :=
  TO_RASTER (clipPosition MVP VI FI)

/-- The combination `b0*a0 + b1*a1 + b2*a2` of three per-vertex values. -/
def blend3 (b0 b1 b2 a0 a1 a2 : ℚ) : ℚ := b0 * a0 + b1 * a1 + b2 * a2

/-- The sample `(P.x/P.w, P.y/P.w, 1)` of the point `P = b0*v0 + b1*v1 + b2*v2`. -/
def projectedSample (b0 b1 b2 : ℚ) (v0 v1 v2 : Vec4) : Vec3 :=
  ⟨blend3 b0 b1 b2 v0.x v1.x v2.x / blend3 b0 b1 b2 v0.w v1.w v2.w,
   blend3 b0 b1 b2 v0.y v1.y v2.y / blend3 b0 b1 b2 v0.w v1.w v2.w, 1⟩

/-- Depth buffer `After` has the length of `Before` and every entry of `After` is less
than or equal to the entry of `Before` at the same index. -/
def DepthNonIncreasing (Before After : List ℚ) : Prop :=
  After.length = Before.length ∧
    ∀ (i : ℕ) (d d' : ℚ), Before[i]? = some d → After[i]? = some d' → d' ≤ d

/-- The pair of entries (depth, color) of the two buffers at index `j`. -/
def entryAt (B : Buffers) (j : ℕ) : Option ℚ × Option Vec3 :=
  (B.DepthBuffer[j]?, B.FrameBuffer[j]?)

/-- The effect of one fragment on the entries of pixel `(X, Y)`: from the entries
`(d, c0)` of `Before`, when the three edge tests are true and `Z ≤ d` the entries of
`After` are the interpolated `Z` and the result of `FS`; otherwise they are `(d, c0)`. -/
def PixelOutcome (S : TriangleSetup) (pTexture : texture) (X Y : ℕ)
    (Before After : Buffers) : Prop :=
  ∀ (d : ℚ) (c0 : Vec3), entryAt Before (Y * ScreenWidth + X) = (some d, some c0) →
    (((EdgeFunction S.E0 (sampleLocation X Y) = true ∧
          EdgeFunction S.E1 (sampleLocation X Y) = true ∧
          EdgeFunction S.E2 (sampleLocation X Y) = true) ∧
        fragmentDepth S (sampleLocation X Y) ≤ d) →
      ∃ c, FS (fragmentInput S (sampleLocation X Y)) pTexture = some c ∧
        entryAt After (Y * ScreenWidth + X)
          = (some (fragmentDepth S (sampleLocation X Y)), some c)) ∧
    (¬ ((EdgeFunction S.E0 (sampleLocation X Y) = true ∧
          EdgeFunction S.E1 (sampleLocation X Y) = true ∧
          EdgeFunction S.E2 (sampleLocation X Y) = true) ∧
        fragmentDepth S (sampleLocation X Y) ≤ d) →
      entryAt After (Y * ScreenWidth + X) = (some d, some c0))

/-- Every value of the map and every entry of the index buffer is an index of the vertex
buffer. -/
def IndicesInRange (st : LoaderState) : Prop :=
  (∀ e ∈ st.indexedPrims, e.2 < st.VertexBuffer.length) ∧
  (∀ i ∈ st.IndexBuffer, i < st.VertexBuffer.length)

/-- The state of the loop over the shapes: the indices are in range, and the mesh buffer
is `MeshBuffer0` followed by meshes whose range lies inside the index buffer. -/
def MeshRangesInside (MeshBuffer0 : List Mesh) (acc : LoaderState × List Mesh) : Prop :=
  IndicesInRange acc.1 ∧
  ∃ news, acc.2 = MeshBuffer0 ++ news ∧
    ∀ m ∈ news, m.MIdxOffset + m.MIdxCount ≤ acc.1.IndexBuffer.length

/-- A projection-like matrix: clip position `(x, y, z, z + 1)`. -/
def demoMVP : Mat4 := ⟨⟨1, 0, 0, 0⟩, ⟨0, 1, 0, 0⟩, ⟨0, 0, 1, 1⟩, ⟨0, 0, 0, 1⟩⟩

/-- A vertex at `(x, y, z)` with texture coordinate `(u, v)`. -/
def demoVertex (x y z u v : ℚ) : vertex_input := ⟨⟨x, y, z⟩, ⟨0, 0, 1⟩, ⟨u, v⟩⟩

/-- Some contents for an uninitialised `fragment_input`. -/
def demoFI : fragment_input := ⟨⟨7, 7, 7⟩, ⟨9, 9⟩⟩

/-- The demo triangle with the texture coordinate `(0, 0)` at its three vertices. -/
def demoVertexBuffer : List vertex_input :=
  [demoVertex 0 0 0 0 0, demoVertex 1 0 1 0 0, demoVertex 0 1 2 0 0]

/-- A mesh made of the one triangle of `demoVertexBuffer`, with the texture `red`. -/
def demoMesh : Mesh := ⟨0, 3, "red"⟩

/-- A one-texel red texture. -/
def demoRed : texture := ⟨[255, 0, 0], 1, 1, 3⟩

/-- A one-texel blue texture. -/
def demoBlue : texture := ⟨[0, 0, 255], 1, 1, 3⟩

/-- A 4 x 4 texture with three channels whose byte at offset `i` is `i`. -/
def demoTexture4 : texture :=
  ⟨(List.range 48).map (fun i => Fin.ofNat i), 4, 4, 3⟩

/-- The setup of the triangle with model positions `(0,0,0)`, `(1,0,1)`, `(0,1,2)` and
texture coordinates `(0,0)`, `(1,0)`, `(0,1)` under `demoMVP` (see `demoSetupNear_eq`). -/
def demoSetupNear : TriangleSetup :=
  { E0 := ⟨-3 / 11, 8 / 11, 0⟩, E1 := ⟨1, 0, -480⟩, E2 := ⟨0, -1, 270⟩
    C := ⟨-1 / 480, 1 / 135, 0⟩, Z := ⟨1 / 480, -1 / 135, 1⟩
    PNX := ⟨-7 / 480, 7 / 135, 0⟩, PNY := ⟨-7 / 480, 7 / 135, 0⟩, PNZ := ⟨-7 / 480, 7 / 135, 0⟩
    PUVS := ⟨1 / 480, 0, -1⟩, PUVT := ⟨0, -1 / 270, 1⟩ }

/-- The setup of the triangle with model positions `(0,0,1)`, `(1,0,2)`, `(0,1,3)` and
texture coordinates `(0,0)`, `(1,0)`, `(0,1)` under `demoMVP` (see `demoSetupFar_eq`). -/
def demoSetupFar : TriangleSetup :=
  { E0 := ⟨-27 / 91, 64 / 91, 0⟩, E1 := ⟨1, 0, -480⟩, E2 := ⟨0, -1, 270⟩
    C := ⟨-1 / 960, 1 / 270, 0⟩, Z := ⟨1 / 960, -1 / 270, 1⟩
    PNX := ⟨-7 / 960, 7 / 270, 0⟩, PNY := ⟨-7 / 960, 7 / 270, 0⟩, PNZ := ⟨-7 / 960, 7 / 270, 0⟩
    PUVS := ⟨1 / 480, 0, -1⟩, PUVT := ⟨0, -1 / 270, 1⟩ }

/-- The set-up of the triangle of `demoVertexBuffer` under `demoMVP`
(see `demoSetupFlat_eq`). -/
def demoSetupFlat : TriangleSetup :=
  { E0 := ⟨-3 / 11, 8 / 11, 0⟩, E1 := ⟨1, 0, -480⟩, E2 := ⟨0, -1, 270⟩
    C := ⟨-1 / 480, 1 / 135, 0⟩, Z := ⟨1 / 480, -1 / 135, 1⟩
    PNX := ⟨-7 / 480, 7 / 135, 0⟩, PNY := ⟨-7 / 480, 7 / 135, 0⟩, PNZ := ⟨-7 / 480, 7 / 135, 0⟩
    PUVS := ⟨0, 0, 0⟩, PUVT := ⟨0, 0, 0⟩ }

/-- A mesh whose texture name `blue` is not a key of the registry `[("red", demoRed)]`. -/
def demoMeshMissing : Mesh := ⟨0, 3, "blue"⟩

/-- The attribute arrays of a small model: three positions, one normal, three texture
coordinates. -/
def demoAttribs : attrib_t :=
  { vertices := [0, 0, 0, 1, 0, 1, 0, 1, 2]
    normals := [0, 0, 1]
    texcoords := [0, 0, 1, 0, 0, -1] }

/-- A shape of two triangles that share two corners; its last corner has no normal and no
texture coordinate. -/
def demoShape : shape_t :=
  { indices := [⟨0, 0, 0⟩, ⟨1, 0, 1⟩, ⟨2, 0, 2⟩, ⟨0, 0, 0⟩, ⟨2, 0, 2⟩, ⟨1, -1, -1⟩]
    material_ids := [0, 0] }

/-- A second shape of one triangle, re-using a corner of the first. -/
def demoShape2 : shape_t :=
  { indices := [⟨2, 0, 2⟩, ⟨1, 0, 0⟩, ⟨0, 0, 0⟩]
    material_ids := [0] }

/-- The material list of the small model. -/
def demoMaterials : List material_t := [⟨"red"⟩]

/-- The result of `InitializeSceneObjects` on the small model (see `demoScene_eq`). -/
def demoScene : Scene :=
  { MeshBuffer := [⟨0, 6, "red"⟩, ⟨6, 3, "red"⟩]
    VertexBuffer :=
      [⟨⟨0, 0, 0⟩, ⟨0, 0, 1⟩, ⟨0, 1⟩⟩, ⟨⟨1, 0, 1⟩, ⟨0, 0, 1⟩, ⟨1, 1⟩⟩, ⟨⟨0, 1, 2⟩, ⟨0, 0, 1⟩, ⟨0, 2⟩⟩,
       ⟨⟨1, 0, 1⟩, ⟨0, 0, 0⟩, ⟨0, 0⟩⟩, ⟨⟨1, 0, 1⟩, ⟨0, 0, 1⟩, ⟨0, 1⟩⟩]
    IndexBuffer := [0, 1, 2, 0, 2, 3, 2, 4, 0]
    Textures := [("red", demoRed)] }

/-! ## Lemmas on the edge function -/

theorem EdgeFunction_eq_true_iff (E Sample : Vec3) :
    EdgeFunction E Sample = true ↔
      (edgeValue E Sample > 0 ∨
        (edgeValue E Sample = 0 ∧ (E.x > 0 ∨ (E.x = 0 ∧ E.y ≥ 0)))) := by
  unfold EdgeFunction edgeValue
  simp only []
  rcases lt_trichotomy (E.x * Sample.x + E.y * Sample.y + E.z) 0 with hv | hv | hv
  · simp [hv, not_lt.mpr hv.le, hv.ne]
  · rcases lt_trichotomy E.x 0 with ha | ha | ha
    · simp [hv, ha, not_lt.mpr ha.le, ha.ne]
    · simp only [ha, zero_mul, zero_add] at hv
      simp [hv, ha]
    · simp [hv, ha]
  · simp [hv]

/-! ## Lemmas on the triangle setup -/

theorem mulVec_inverse_dot (v0 v1 v2 : Vec4) (a : Vec3)
    (hdet : determinant (vertexMatrix v0 v1 v2) ≠ 0) :
    ((inverse (vertexMatrix v0 v1 v2)).mulVec a).x * v0.x
        + ((inverse (vertexMatrix v0 v1 v2)).mulVec a).y * v0.y
        + ((inverse (vertexMatrix v0 v1 v2)).mulVec a).z * v0.w = a.x ∧
    ((inverse (vertexMatrix v0 v1 v2)).mulVec a).x * v1.x
        + ((inverse (vertexMatrix v0 v1 v2)).mulVec a).y * v1.y
        + ((inverse (vertexMatrix v0 v1 v2)).mulVec a).z * v1.w = a.y ∧
    ((inverse (vertexMatrix v0 v1 v2)).mulVec a).x * v2.x
        + ((inverse (vertexMatrix v0 v1 v2)).mulVec a).y * v2.y
        + ((inverse (vertexMatrix v0 v1 v2)).mulVec a).z * v2.w = a.z := by
  obtain ⟨x0, y0, z0, w0⟩ := v0
  obtain ⟨x1, y1, z1, w1⟩ := v1
  obtain ⟨x2, y2, z2, w2⟩ := v2
  obtain ⟨a0, a1, a2⟩ := a
  simp only [inverse, vertexMatrix, Mat3.mulVec, determinant] at hdet ⊢
  refine ⟨?_, ?_, ?_⟩ <;> field_simp <;> ring

theorem interpolant_at_projectedSample (V : Vec3) (v0 v1 v2 : Vec4) (b0 b1 b2 : ℚ)
    (hw : blend3 b0 b1 b2 v0.w v1.w v2.w ≠ 0) :
    V.x * (projectedSample b0 b1 b2 v0 v1 v2).x + V.y * (projectedSample b0 b1 b2 v0 v1 v2).y + V.z
      = blend3 b0 b1 b2 (V.x * v0.x + V.y * v0.y + V.z * v0.w)
          (V.x * v1.x + V.y * v1.y + V.z * v1.w) (V.x * v2.x + V.y * v2.y + V.z * v2.w)
        / blend3 b0 b1 b2 v0.w v1.w v2.w := by
  simp only [projectedSample]
  field_simp
  simp only [blend3]
  ring

theorem interpolated_value (v0 v1 v2 : Vec4) (a : Vec3) (b0 b1 b2 : ℚ)
    (hdet : determinant (vertexMatrix v0 v1 v2) ≠ 0)
    (hb : b0 + b1 + b2 ≠ 0) (hw : blend3 b0 b1 b2 v0.w v1.w v2.w ≠ 0) :
    (((inverse (vertexMatrix v0 v1 v2)).mulVec a).x * (projectedSample b0 b1 b2 v0 v1 v2).x
        + ((inverse (vertexMatrix v0 v1 v2)).mulVec a).y * (projectedSample b0 b1 b2 v0 v1 v2).y
        + ((inverse (vertexMatrix v0 v1 v2)).mulVec a).z)
      * (1 / (((inverse (vertexMatrix v0 v1 v2)).mulVec ⟨1, 1, 1⟩).x
            * (projectedSample b0 b1 b2 v0 v1 v2).x
          + ((inverse (vertexMatrix v0 v1 v2)).mulVec ⟨1, 1, 1⟩).y
            * (projectedSample b0 b1 b2 v0 v1 v2).y
          + ((inverse (vertexMatrix v0 v1 v2)).mulVec ⟨1, 1, 1⟩).z))
      = blend3 b0 b1 b2 a.x a.y a.z / (b0 + b1 + b2) := by
  rw [interpolant_at_projectedSample _ v0 v1 v2 b0 b1 b2 hw,
    interpolant_at_projectedSample _ v0 v1 v2 b0 b1 b2 hw]
  obtain ⟨h0, h1, h2⟩ := mulVec_inverse_dot v0 v1 v2 a hdet
  obtain ⟨k0, k1, k2⟩ := mulVec_inverse_dot v0 v1 v2 ⟨1, 1, 1⟩ hdet
  rw [h0, h1, h2, k0, k1, k2]
  have e : blend3 b0 b1 b2 1 1 1 = b0 + b1 + b2 := by simp [blend3]
  simp only [e]
  field_simp

/-! ## Lemmas on the per-pixel step -/

theorem shadePixel_of_uncovered (S : TriangleSetup) (T : texture) (X Y : ℕ) (B : Buffers)
    (h : (EdgeFunction S.E0 (sampleLocation X Y) && EdgeFunction S.E1 (sampleLocation X Y)
        && EdgeFunction S.E2 (sampleLocation X Y)) = false) :
    shadePixel S T Y X B = some B := by
  simp only [shadePixel, h]
  rfl

theorem shadePixel_of_rejected (S : TriangleSetup) (T : texture) (X Y : ℕ) (B : Buffers) (d : ℚ)
    (hd : B.DepthBuffer[Y * ScreenWidth + X]? = some d)
    (hz : ¬ fragmentDepth S (sampleLocation X Y) ≤ d) :
    shadePixel S T Y X B = some B := by
  simp only [shadePixel, hd, if_neg hz]
  split <;> rfl

theorem shadePixel_of_written (S : TriangleSetup) (T : texture) (X Y : ℕ) (B : Buffers)
    (d : ℚ) (c : Vec3)
    (h0 : EdgeFunction S.E0 (sampleLocation X Y) = true)
    (h1 : EdgeFunction S.E1 (sampleLocation X Y) = true)
    (h2 : EdgeFunction S.E2 (sampleLocation X Y) = true)
    (hd : B.DepthBuffer[Y * ScreenWidth + X]? = some d)
    (hz : fragmentDepth S (sampleLocation X Y) ≤ d)
    (hc : FS (fragmentInput S (sampleLocation X Y)) T = some c)
    (hF : Y * ScreenWidth + X < B.FrameBuffer.length) :
    shadePixel S T Y X B = some
      { FrameBuffer := B.FrameBuffer.set (Y * ScreenWidth + X) c
        DepthBuffer := B.DepthBuffer.set (Y * ScreenWidth + X)
          (fragmentDepth S (sampleLocation X Y)) } := by
  simp only [shadePixel, h0, h1, h2, hd, if_pos hz, hc, if_pos hF, Bool.and_self, if_true]

theorem shadePixel_cases (S : TriangleSetup) (T : texture) (X Y : ℕ) (B B' : Buffers)
    (h : shadePixel S T Y X B = some B') :
    B' = B ∨
    ((EdgeFunction S.E0 (sampleLocation X Y) = true ∧ EdgeFunction S.E1 (sampleLocation X Y) = true
        ∧ EdgeFunction S.E2 (sampleLocation X Y) = true) ∧
      ∃ d c, B.DepthBuffer[Y * ScreenWidth + X]? = some d ∧
        fragmentDepth S (sampleLocation X Y) ≤ d ∧
        FS (fragmentInput S (sampleLocation X Y)) T = some c ∧
        Y * ScreenWidth + X < B.FrameBuffer.length ∧
        B' = { FrameBuffer := B.FrameBuffer.set (Y * ScreenWidth + X) c
               DepthBuffer := B.DepthBuffer.set (Y * ScreenWidth + X)
                 (fragmentDepth S (sampleLocation X Y)) }) := by
  by_cases hcov : (EdgeFunction S.E0 (sampleLocation X Y) && EdgeFunction S.E1 (sampleLocation X Y)
        && EdgeFunction S.E2 (sampleLocation X Y)) = true
  · have hcov3 : EdgeFunction S.E0 (sampleLocation X Y) = true
        ∧ EdgeFunction S.E1 (sampleLocation X Y) = true
        ∧ EdgeFunction S.E2 (sampleLocation X Y) = true := by
      simpa [Bool.and_eq_true, and_assoc] using hcov
    cases hd : B.DepthBuffer[Y * ScreenWidth + X]? with
    | none => simp [shadePixel, hcov3, hd] at h
    | some d =>
      by_cases hz : fragmentDepth S (sampleLocation X Y) ≤ d
      · cases hc : FS (fragmentInput S (sampleLocation X Y)) T with
        | none => simp [shadePixel, hcov3, hd, hz, hc] at h
        | some c =>
          by_cases hF : Y * ScreenWidth + X < B.FrameBuffer.length
          · rw [shadePixel_of_written S T X Y B d c hcov3.1 hcov3.2.1 hcov3.2.2 hd hz hc hF] at h
            right
            exact ⟨hcov3, d, c, rfl, hz, rfl, hF, (Option.some.inj h).symm⟩
          · simp [shadePixel, hcov3, hd, hz, hc, hF] at h
      · rw [shadePixel_of_rejected S T X Y B d hd hz] at h
        exact Or.inl (Option.some.inj h).symm
  · rw [shadePixel_of_uncovered S T X Y B (by simpa using hcov)] at h
    exact Or.inl (Option.some.inj h).symm

/-! ## The worked instances are set-ups of actual triangles -/

theorem demoSetupNear_eq :
    triangleSetup demoMVP (demoVertex 0 0 0 0 0) (demoVertex 1 0 1 1 0) (demoVertex 0 1 2 0 1)
      demoFI demoFI demoFI = some demoSetupNear := by decide!

theorem demoSetupFar_eq :
    triangleSetup demoMVP (demoVertex 0 0 1 0 0) (demoVertex 1 0 2 1 0) (demoVertex 0 1 3 0 1)
      demoFI demoFI demoFI = some demoSetupFar := by decide!

theorem initialBuffers_frame_length :
    initialBuffers.FrameBuffer.length = ScreenWidth * ScreenHeight :=
  List.length_replicate _ _

theorem initialBuffers_depth_length :
    initialBuffers.DepthBuffer.length = ScreenWidth * ScreenHeight :=
  List.length_replicate _ _

theorem initialBuffers_depth_get (i : ℕ) (h : i < ScreenWidth * ScreenHeight) :
    initialBuffers.DepthBuffer[i]? = some FLT_MAX :=
  List.getElem?_replicate_of_lt h

theorem initialBuffers_frame_get (i : ℕ) (h : i < ScreenWidth * ScreenHeight) :
    initialBuffers.FrameBuffer[i]? = some ⟨0, 0, 0⟩ :=
  List.getElem?_replicate_of_lt h

/-! ## Lemmas on loops -/

theorem foldlM_option_rel {α β : Type} (f : β → α → Option β) (R : β → β → Prop)
    (hrefl : ∀ b, R b b) (htrans : ∀ a b c, R a b → R b c → R a c)
    (hstep : ∀ b a b', f b a = some b' → R b b') :
    ∀ (l : List α) (b b' : β), l.foldlM f b = some b' → R b b' := by
  intro l
  induction l with
  | nil =>
    intro b b' h
    simp only [List.foldlM_nil] at h
    cases h
    exact hrefl b
  | cons a l ih =>
    intro b b' h
    simp only [List.foldlM_cons] at h
    cases hfa : f b a with
    | none => rw [hfa] at h; cases h
    | some b1 =>
      rw [hfa] at h
      exact htrans _ _ _ (hstep b a b1 hfa) (ih b1 b' h)

theorem foldlM_option_isSome {α β : Type} (f : β → α → Option β) (I : β → Prop) (P : α → Prop)
    (hstep : ∀ b a, I b → P a → ∃ b', f b a = some b' ∧ I b') :
    ∀ (l : List α) (b : β), (∀ a ∈ l, P a) → I b → ∃ b', l.foldlM f b = some b' ∧ I b' := by
  intro l
  induction l with
  | nil =>
    intro b _ hI
    exact ⟨b, rfl, hI⟩
  | cons a l ih =>
    intro b hP hI
    obtain ⟨b1, h1, hI1⟩ := hstep b a hI (hP a (List.mem_cons_self a l))
    obtain ⟨b2, h2, hI2⟩ := ih b1 (fun x hx => hP x (List.mem_cons_of_mem a hx)) hI1
    refine ⟨b2, ?_, hI2⟩
    simp only [List.foldlM_cons, h1]
    exact h2

/-! ## Lemmas on the depth buffer -/

theorem DepthNonIncreasing.refl (D : List ℚ) : DepthNonIncreasing D D := by
  refine ⟨rfl, ?_⟩
  intro i d d' h h'
  rw [h] at h'
  cases h'
  exact le_rfl

theorem DepthNonIncreasing.trans (D1 D2 D3 : List ℚ) (h12 : DepthNonIncreasing D1 D2)
    (h23 : DepthNonIncreasing D2 D3) : DepthNonIncreasing D1 D3 := by
  refine ⟨h23.1.trans h12.1, ?_⟩
  intro i d d' h h'
  have hi : i < D1.length := by
    rcases List.getElem?_eq_some.mp h with ⟨hi, -⟩
    exact hi
  have hi2 : i < D2.length := by rw [h12.1]; exact hi
  have h2 : D2[i]? = some D2[i] := List.getElem?_eq_getElem hi2
  exact (h23.2 i _ _ h2 h').trans (h12.2 i _ _ h h2)

theorem shadePixel_depthNonIncreasing (S : TriangleSetup) (T : texture) (X Y : ℕ)
    (B B' : Buffers) (h : shadePixel S T Y X B = some B') :
    DepthNonIncreasing B.DepthBuffer B'.DepthBuffer := by
  rcases shadePixel_cases S T X Y B B' h with rfl | ⟨-, d, c, hd, hz, -, -, rfl⟩
  · exact DepthNonIncreasing.refl _
  · refine ⟨by simp, ?_⟩
    intro i e e' he he'
    simp only at he'
    by_cases hi : Y * ScreenWidth + X = i
    · subst hi
      rw [hd] at he
      cases he
      have hlen : Y * ScreenWidth + X < B.DepthBuffer.length := by
        rcases List.getElem?_eq_some.mp hd with ⟨hi, -⟩
        exact hi
      rw [List.getElem?_set_self hlen] at he'
      cases he'
      exact hz
    · rw [List.getElem?_set_ne hi] at he'
      rw [he] at he'
      cases he'
      exact le_rfl

theorem scanRow_depthNonIncreasing (S : TriangleSetup) (T : texture) (Y : ℕ)
    (B B' : Buffers) (h : scanRow S T B Y = some B') :
    DepthNonIncreasing B.DepthBuffer B'.DepthBuffer :=
  foldlM_option_rel (fun B X => shadePixel S T Y X B)
    (fun B B' => DepthNonIncreasing B.DepthBuffer B'.DepthBuffer)
    (fun _ => DepthNonIncreasing.refl _) (fun _ _ _ => DepthNonIncreasing.trans _ _ _)
    (fun b a b' hs => shadePixel_depthNonIncreasing S T a Y b b' hs) _ B B' h

theorem scanTriangle_depthNonIncreasing (S : TriangleSetup) (T : texture)
    (B B' : Buffers) (h : scanTriangle S T B = some B') :
    DepthNonIncreasing B.DepthBuffer B'.DepthBuffer :=
  foldlM_option_rel (scanRow S T)
    (fun B B' => DepthNonIncreasing B.DepthBuffer B'.DepthBuffer)
    (fun _ => DepthNonIncreasing.refl _) (fun _ _ _ => DepthNonIncreasing.trans _ _ _)
    (fun b a b' hs => scanRow_depthNonIncreasing S T a b b' hs) _ B B' h

theorem processTriangle_depthNonIncreasing (MVP : Mat4) (VI0 VI1 VI2 : vertex_input)
    (FI0 FI1 FI2 : fragment_input) (T : texture) (B B' : Buffers)
    (h : processTriangle MVP VI0 VI1 VI2 FI0 FI1 FI2 T B = some B') :
    DepthNonIncreasing B.DepthBuffer B'.DepthBuffer := by
  unfold processTriangle at h
  cases hS : triangleSetup MVP VI0 VI1 VI2 FI0 FI1 FI2 with
  | none =>
    rw [hS] at h
    cases h
    exact DepthNonIncreasing.refl _
  | some S =>
    rw [hS] at h
    exact scanTriangle_depthNonIncreasing S T B B' h

theorem drawTriangle_eq_some (MVP : Mat4) (VertexBuffer : List vertex_input)
    (IndexBuffer : List ℕ) (mesh : Mesh) (T : texture) (FI0 FI1 FI2 : fragment_input)
    (B B' : Buffers) (Idx : ℕ)
    (h : drawTriangle MVP VertexBuffer IndexBuffer mesh T FI0 FI1 FI2 B Idx = some B') :
    ∃ VI0 VI1 VI2, processTriangle MVP VI0 VI1 VI2 FI0 FI1 FI2 T B = some B' := by
  unfold drawTriangle at h
  split at h
  · split at h
    · exact ⟨_, _, _, h⟩
    · cases h
  · cases h

theorem drawTriangle_depthNonIncreasing (MVP : Mat4) (VertexBuffer : List vertex_input)
    (IndexBuffer : List ℕ) (mesh : Mesh) (T : texture) (FI0 FI1 FI2 : fragment_input)
    (B B' : Buffers) (Idx : ℕ)
    (h : drawTriangle MVP VertexBuffer IndexBuffer mesh T FI0 FI1 FI2 B Idx = some B') :
    DepthNonIncreasing B.DepthBuffer B'.DepthBuffer := by
  obtain ⟨VI0, VI1, VI2, hp⟩ :=
    drawTriangle_eq_some MVP VertexBuffer IndexBuffer mesh T FI0 FI1 FI2 B B' Idx h
  exact processTriangle_depthNonIncreasing MVP VI0 VI1 VI2 FI0 FI1 FI2 T B B' hp

theorem drawMesh_depthNonIncreasing (MVP : Mat4) (VertexBuffer : List vertex_input)
    (IndexBuffer : List ℕ) (Textures : List (String × texture)) (FI0 FI1 FI2 : fragment_input)
    (B B' : Buffers) (mesh : Mesh)
    (h : drawMesh MVP VertexBuffer IndexBuffer Textures FI0 FI1 FI2 B mesh = some B') :
    DepthNonIncreasing B.DepthBuffer B'.DepthBuffer := by
  unfold drawMesh at h
  cases hT : Textures.lookup mesh.MDiffuseTexName with
  | none => rw [hT] at h; cases h
  | some T =>
    rw [hT] at h
    exact foldlM_option_rel (drawTriangle MVP VertexBuffer IndexBuffer mesh T FI0 FI1 FI2)
      (fun B B' => DepthNonIncreasing B.DepthBuffer B'.DepthBuffer)
      (fun _ => DepthNonIncreasing.refl _) (fun _ _ _ => DepthNonIncreasing.trans _ _ _)
      (fun b a b' hs =>
        drawTriangle_depthNonIncreasing MVP VertexBuffer IndexBuffer mesh T FI0 FI1 FI2 b b' a hs)
      _ B B' h

theorem render_depthNonIncreasing (MVP : Mat4) (Primitives : List Mesh)
    (VertexBuffer : List vertex_input) (IndexBuffer : List ℕ)
    (Textures : List (String × texture)) (FI0 FI1 FI2 : fragment_input) (B B' : Buffers)
    (h : render MVP Primitives VertexBuffer IndexBuffer Textures FI0 FI1 FI2 B = some B') :
    DepthNonIncreasing B.DepthBuffer B'.DepthBuffer :=
  foldlM_option_rel (drawMesh MVP VertexBuffer IndexBuffer Textures FI0 FI1 FI2)
    (fun B B' => DepthNonIncreasing B.DepthBuffer B'.DepthBuffer)
    (fun _ => DepthNonIncreasing.refl _) (fun _ _ _ => DepthNonIncreasing.trans _ _ _)
    (fun b a b' hs =>
      drawMesh_depthNonIncreasing MVP VertexBuffer IndexBuffer Textures FI0 FI1 FI2 b b' a hs)
    _ B B' h

/-! ## Lemmas on the success of the scan -/

theorem pixelIndex_lt (X Y : ℕ) (hX : X < ScreenWidth) (hY : Y < ScreenHeight) :
    Y * ScreenWidth + X < ScreenWidth * ScreenHeight := by
  have h1 : Y * ScreenWidth + X < (Y + 1) * ScreenWidth := by
    rw [Nat.add_mul, Nat.one_mul]
    exact Nat.add_lt_add_left hX _
  have h2 : (Y + 1) * ScreenWidth ≤ ScreenHeight * ScreenWidth :=
    Nat.mul_le_mul_right _ hY
  rw [Nat.mul_comm ScreenWidth ScreenHeight]
  exact lt_of_lt_of_le h1 h2

theorem FS_depends_on_TexCoords (I J : fragment_input) (T : texture)
    (h : I.TexCoords = J.TexCoords) : FS I T = FS J T := by
  unfold FS texelIndices
  rw [h]

theorem fragmentInput_TexCoords_of_flat (S : TriangleSetup) (s : Vec3)
    (hS : S.PUVS = ⟨0, 0, 0⟩) (hT : S.PUVT = ⟨0, 0, 0⟩) :
    (fragmentInput S s).TexCoords = ⟨0, 0⟩ := by
  simp [fragmentInput, hS, hT]

theorem shadePixel_length (S : TriangleSetup) (T : texture) (X Y : ℕ)
    (B B' : Buffers) (h : shadePixel S T Y X B = some B') :
    B'.FrameBuffer.length = B.FrameBuffer.length ∧
    B'.DepthBuffer.length = B.DepthBuffer.length := by
  rcases shadePixel_cases S T X Y B B' h with rfl | ⟨-, d, c, -, -, -, -, rfl⟩
  · exact ⟨rfl, rfl⟩
  · simp

theorem shadePixel_succeeds (S : TriangleSetup) (T : texture) (X Y : ℕ) (B : Buffers) (c : Vec3)
    (hc : FS (fragmentInput S (sampleLocation X Y)) T = some c)
    (hF : Y * ScreenWidth + X < B.FrameBuffer.length)
    (hD : Y * ScreenWidth + X < B.DepthBuffer.length) :
    ∃ B', shadePixel S T Y X B = some B' := by
  by_cases hcov : (EdgeFunction S.E0 (sampleLocation X Y) && EdgeFunction S.E1 (sampleLocation X Y)
        && EdgeFunction S.E2 (sampleLocation X Y)) = true
  · have hcov3 : EdgeFunction S.E0 (sampleLocation X Y) = true
        ∧ EdgeFunction S.E1 (sampleLocation X Y) = true
        ∧ EdgeFunction S.E2 (sampleLocation X Y) = true := by
      simpa [Bool.and_eq_true, and_assoc] using hcov
    have hd : B.DepthBuffer[Y * ScreenWidth + X]? = some B.DepthBuffer[Y * ScreenWidth + X] :=
      List.getElem?_eq_getElem hD
    by_cases hz : fragmentDepth S (sampleLocation X Y) ≤ B.DepthBuffer[Y * ScreenWidth + X]
    · exact ⟨_, shadePixel_of_written S T X Y B _ c hcov3.1 hcov3.2.1 hcov3.2.2 hd hz hc hF⟩
    · exact ⟨_, shadePixel_of_rejected S T X Y B _ hd hz⟩
  · exact ⟨_, shadePixel_of_uncovered S T X Y B (by simpa using hcov)⟩

theorem scanRow_succeeds (S : TriangleSetup) (T : texture) (c : Vec3)
    (hc : ∀ X Y, FS (fragmentInput S (sampleLocation X Y)) T = some c)
    (Y : ℕ) (hY : Y < ScreenHeight) (B : Buffers)
    (hB : B.FrameBuffer.length = ScreenWidth * ScreenHeight ∧
      B.DepthBuffer.length = ScreenWidth * ScreenHeight) :
    ∃ B', scanRow S T B Y = some B' ∧
      (B'.FrameBuffer.length = ScreenWidth * ScreenHeight ∧
        B'.DepthBuffer.length = ScreenWidth * ScreenHeight) := by
  refine foldlM_option_isSome (fun B X => shadePixel S T Y X B)
    (fun B => B.FrameBuffer.length = ScreenWidth * ScreenHeight ∧
      B.DepthBuffer.length = ScreenWidth * ScreenHeight)
    (fun X => X < ScreenWidth) ?_ (List.range ScreenWidth) B
    (fun _ hX => List.mem_range.mp hX) hB
  intro b X hb hX
  have hi := pixelIndex_lt X Y hX hY
  obtain ⟨b', hb'⟩ := shadePixel_succeeds S T X Y b c (hc X Y) (by rw [hb.1]; exact hi)
    (by rw [hb.2]; exact hi)
  obtain ⟨h1, h2⟩ := shadePixel_length S T X Y b b' hb'
  exact ⟨b', hb', by rw [h1, hb.1], by rw [h2, hb.2]⟩

theorem scanTriangle_succeeds (S : TriangleSetup) (T : texture) (c : Vec3)
    (hc : ∀ X Y, FS (fragmentInput S (sampleLocation X Y)) T = some c) (B : Buffers)
    (hB : B.FrameBuffer.length = ScreenWidth * ScreenHeight ∧
      B.DepthBuffer.length = ScreenWidth * ScreenHeight) :
    ∃ B', scanTriangle S T B = some B' ∧
      (B'.FrameBuffer.length = ScreenWidth * ScreenHeight ∧
        B'.DepthBuffer.length = ScreenWidth * ScreenHeight) :=
  foldlM_option_isSome (scanRow S T)
    (fun B => B.FrameBuffer.length = ScreenWidth * ScreenHeight ∧
      B.DepthBuffer.length = ScreenWidth * ScreenHeight)
    (fun Y => Y < ScreenHeight)
    (fun b Y hb hY => scanRow_succeeds S T c hc Y hY b hb) (List.range ScreenHeight) B
    (fun _ hY => List.mem_range.mp hY) hB

theorem demoSetupFlat_eq :
    triangleSetup demoMVP (demoVertex 0 0 0 0 0) (demoVertex 1 0 1 0 0) (demoVertex 0 1 2 0 0)
      demoFI demoFI demoFI = some demoSetupFlat := by decide!

theorem demoSetupFlat_FS (X Y : ℕ) :
    FS (fragmentInput demoSetupFlat (sampleLocation X Y)) demoRed = some ⟨1, 0, 0⟩ := by
  rw [FS_depends_on_TexCoords _ ⟨⟨0, 0, 0⟩, ⟨0, 0⟩⟩ demoRed
    (fragmentInput_TexCoords_of_flat demoSetupFlat _ rfl rfl)]
  decide!

theorem demo_scanTriangle_succeeds :
    ∃ B', scanTriangle demoSetupFlat demoRed initialBuffers = some B' := by
  obtain ⟨B', h, -⟩ := scanTriangle_succeeds demoSetupFlat demoRed ⟨1, 0, 0⟩ demoSetupFlat_FS
    initialBuffers ⟨initialBuffers_frame_length, initialBuffers_depth_length⟩
  exact ⟨B', h⟩

theorem demo_drawTriangle_eq :
    drawTriangle demoMVP demoVertexBuffer [0, 1, 2] demoMesh demoRed demoFI demoFI demoFI
      initialBuffers 0 = scanTriangle demoSetupFlat demoRed initialBuffers := by
  have h : drawTriangle demoMVP demoVertexBuffer [0, 1, 2] demoMesh demoRed demoFI demoFI demoFI
      initialBuffers 0 = processTriangle demoMVP (demoVertex 0 0 0 0 0) (demoVertex 1 0 1 0 0)
        (demoVertex 0 1 2 0 0) demoFI demoFI demoFI demoRed initialBuffers := rfl
  rw [h]
  unfold processTriangle
  rw [demoSetupFlat_eq]

theorem demo_render_eq :
    render demoMVP [demoMesh] demoVertexBuffer [0, 1, 2] [("red", demoRed)] demoFI demoFI demoFI
      initialBuffers = scanTriangle demoSetupFlat demoRed initialBuffers := by
  have h : render demoMVP [demoMesh] demoVertexBuffer [0, 1, 2] [("red", demoRed)] demoFI demoFI
      demoFI initialBuffers
      = (drawTriangle demoMVP demoVertexBuffer [0, 1, 2] demoMesh demoRed demoFI demoFI demoFI
          initialBuffers 0).bind some := by
    simp [render, drawMesh, demoMesh, List.lookup, List.range_succ]
  rw [h, demo_drawTriangle_eq]
  simp

/-! ## Lemmas on the effect of the scan on each pixel -/

theorem foldlM_footprint {α : Type} (f : Buffers → α → Option Buffers) (fp : α → ℕ → Prop)
    (Q : α → Buffers → Buffers → Prop)
    (hframe : ∀ a B B', f B a = some B' → ∀ j, ¬ fp a j → entryAt B' j = entryAt B j)
    (hQ : ∀ a B B', f B a = some B' → Q a B B')
    (hlocal : ∀ a B1 B1' B2 B2', (∀ j, fp a j → entryAt B1 j = entryAt B2 j) →
      (∀ j, fp a j → entryAt B1' j = entryAt B2' j) → Q a B1 B1' → Q a B2 B2') :
    ∀ (L : List α), L.Pairwise (fun a b => ∀ j, fp a j → ¬ fp b j) →
      ∀ B B', L.foldlM f B = some B' →
        (∀ j, (∀ a ∈ L, ¬ fp a j) → entryAt B' j = entryAt B j) ∧ ∀ a ∈ L, Q a B B' := by
  intro L
  induction L with
  | nil =>
    intro _ B B' h
    simp only [List.foldlM_nil] at h
    cases h
    exact ⟨fun _ _ => rfl, fun a ha => absurd ha (List.not_mem_nil a)⟩
  | cons a L ih =>
    intro hpair B B' h
    rw [List.pairwise_cons] at hpair
    obtain ⟨hdisj, hpairL⟩ := hpair
    simp only [List.foldlM_cons] at h
    cases hfa : f B a with
    | none => rw [hfa] at h; cases h
    | some B1 =>
      rw [hfa] at h
      obtain ⟨hout, hin⟩ := ih hpairL B1 B' h
      refine ⟨?_, ?_⟩
      · intro j hj
        rw [hout j (fun b hb => hj b (List.mem_cons_of_mem a hb))]
        exact hframe a B B1 hfa j (hj a (List.mem_cons_self a L))
      · intro b hb
        rcases List.mem_cons.mp hb with rfl | hbL
        · refine hlocal b B B1 B B' (fun _ _ => rfl) ?_ (hQ b B B1 hfa)
          intro j hj
          exact (hout j (fun x hx => hdisj x hx j hj)).symm
        · refine hlocal b B1 B' B B' ?_ (fun _ _ => rfl) (hin b hbL)
          intro j hj
          exact hframe a B B1 hfa j (fun haj => hdisj b hbL j haj hj)

theorem shadePixel_frame (S : TriangleSetup) (T : texture) (X Y : ℕ) (B B' : Buffers)
    (h : shadePixel S T Y X B = some B') (j : ℕ) (hj : ¬ j = Y * ScreenWidth + X) :
    entryAt B' j = entryAt B j := by
  rcases shadePixel_cases S T X Y B B' h with rfl | ⟨-, d, c, -, -, -, -, rfl⟩
  · rfl
  · have hne : Y * ScreenWidth + X ≠ j := fun e => hj e.symm
    simp only [entryAt, List.getElem?_set_ne hne]

theorem shadePixel_outcome (S : TriangleSetup) (T : texture) (X Y : ℕ) (B B' : Buffers)
    (h : shadePixel S T Y X B = some B') : PixelOutcome S T X Y B B' := by
  intro d c0 he
  simp only [entryAt, Prod.mk.injEq] at he
  obtain ⟨hd, hc0⟩ := he
  have hD : Y * ScreenWidth + X < B.DepthBuffer.length := by
    rcases List.getElem?_eq_some.mp hd with ⟨hi, -⟩
    exact hi
  have hF : Y * ScreenWidth + X < B.FrameBuffer.length := by
    rcases List.getElem?_eq_some.mp hc0 with ⟨hi, -⟩
    exact hi
  constructor
  · rintro ⟨hcov, hz⟩
    rcases shadePixel_cases S T X Y B B' h with rfl | ⟨-, d1, c, hd1, -, hc, -, rfl⟩
    · -- the step returned the buffers unchanged: impossible unless it wrote the same values
      cases hc : FS (fragmentInput S (sampleLocation X Y)) T with
      | none =>
        simp [shadePixel, hcov.1, hcov.2.1, hcov.2.2, hd, hz, hc] at h
      | some c =>
        rw [shadePixel_of_written S T X Y B' d c hcov.1 hcov.2.1 hcov.2.2 hd hz hc hF] at h
        have hB := Option.some.inj h
        refine ⟨c, rfl, ?_⟩
        have e1 : B'.DepthBuffer[Y * ScreenWidth + X]?
            = some (fragmentDepth S (sampleLocation X Y)) := by
          have := congrArg (fun b : Buffers => b.DepthBuffer[Y * ScreenWidth + X]?) hB
          simp only [List.getElem?_set_self hD] at this
          exact this.symm
        have e2 : B'.FrameBuffer[Y * ScreenWidth + X]? = some c := by
          have := congrArg (fun b : Buffers => b.FrameBuffer[Y * ScreenWidth + X]?) hB
          simp only [List.getElem?_set_self hF] at this
          exact this.symm
        simp only [entryAt, e1, e2]
    · exact ⟨c, hc, by simp only [entryAt, List.getElem?_set_self hD, List.getElem?_set_self hF]⟩
  · intro hn
    have hB : B' = B := by
      by_cases hcov : EdgeFunction S.E0 (sampleLocation X Y) = true ∧
          EdgeFunction S.E1 (sampleLocation X Y) = true ∧
          EdgeFunction S.E2 (sampleLocation X Y) = true
      · have hz : ¬ fragmentDepth S (sampleLocation X Y) ≤ d := fun hz => hn ⟨hcov, hz⟩
        rw [shadePixel_of_rejected S T X Y B d hd hz] at h
        exact (Option.some.inj h).symm
      · have hu : (EdgeFunction S.E0 (sampleLocation X Y) && EdgeFunction S.E1 (sampleLocation X Y)
            && EdgeFunction S.E2 (sampleLocation X Y)) = false := by
          rw [← Bool.not_eq_true]
          intro ht
          exact hcov (by simpa [Bool.and_eq_true, and_assoc] using ht)
        rw [shadePixel_of_uncovered S T X Y B hu] at h
        exact (Option.some.inj h).symm
    rw [hB]
    simp only [entryAt, hd, hc0]

theorem PixelOutcome_local (S : TriangleSetup) (T : texture) (X Y : ℕ)
    (B1 B1' B2 B2' : Buffers)
    (h : entryAt B1 (Y * ScreenWidth + X) = entryAt B2 (Y * ScreenWidth + X))
    (h' : entryAt B1' (Y * ScreenWidth + X) = entryAt B2' (Y * ScreenWidth + X))
    (hQ : PixelOutcome S T X Y B1 B1') : PixelOutcome S T X Y B2 B2' := by
  unfold PixelOutcome at *
  rw [← h, ← h']
  exact hQ

theorem scanRow_effect (S : TriangleSetup) (T : texture) (Y : ℕ) (B B' : Buffers)
    (h : scanRow S T B Y = some B') :
    (∀ j, (∀ X, X < ScreenWidth → ¬ j = Y * ScreenWidth + X) → entryAt B' j = entryAt B j) ∧
    ∀ X, X < ScreenWidth → PixelOutcome S T X Y B B' := by
  have key := foldlM_footprint (fun B X => shadePixel S T Y X B)
    (fun X j => j = Y * ScreenWidth + X) (fun X B B' => PixelOutcome S T X Y B B')
    (fun X B B' hs j hj => shadePixel_frame S T X Y B B' hs j hj)
    (fun X B B' hs => shadePixel_outcome S T X Y B B' hs)
    (fun X B1 B1' B2 B2' e e' hQ =>
      PixelOutcome_local S T X Y B1 B1' B2 B2' (e _ rfl) (e' _ rfl) hQ)
    (List.range ScreenWidth)
    ((List.nodup_range ScreenWidth).imp (fun hne j hj hj' => hne (by omega)))
    B B' h
  refine ⟨fun j hj => key.1 j (fun X hX => hj X (List.mem_range.mp hX)), ?_⟩
  intro X hX
  exact key.2 X (List.mem_range.mpr hX)

theorem scanTriangle_effect (S : TriangleSetup) (T : texture) (B B' : Buffers)
    (h : scanTriangle S T B = some B') :
    ∀ X Y, X < ScreenWidth → Y < ScreenHeight → PixelOutcome S T X Y B B' := by
  have key := foldlM_footprint (scanRow S T)
    (fun Y j => ∃ X, X < ScreenWidth ∧ j = Y * ScreenWidth + X)
    (fun Y B B' => ∀ X, X < ScreenWidth → PixelOutcome S T X Y B B')
    (fun Y B B' hs j hj =>
      (scanRow_effect S T Y B B' hs).1 j (fun X hX e => hj ⟨X, hX, e⟩))
    (fun Y B B' hs => (scanRow_effect S T Y B B' hs).2)
    (fun Y B1 B1' B2 B2' e e' hQ X hX =>
      PixelOutcome_local S T X Y B1 B1' B2 B2' (e _ ⟨X, hX, rfl⟩) (e' _ ⟨X, hX, rfl⟩) (hQ X hX))
    (List.range ScreenHeight)
    ((List.nodup_range ScreenHeight).imp (by
      rintro Y Y' hne j ⟨X, hX, rfl⟩ ⟨X', hX', e⟩
      apply hne
      simp only [ScreenWidth] at hX hX' e
      omega))
    B B' h
  intro X Y hX hY
  exact key.2 Y (List.mem_range.mpr hY) X hX

theorem scanRow_length (S : TriangleSetup) (T : texture) (Y : ℕ) (B B' : Buffers)
    (h : scanRow S T B Y = some B') :
    B'.FrameBuffer.length = B.FrameBuffer.length ∧
    B'.DepthBuffer.length = B.DepthBuffer.length :=
  foldlM_option_rel (fun B X => shadePixel S T Y X B)
    (fun B B' => B'.FrameBuffer.length = B.FrameBuffer.length ∧
      B'.DepthBuffer.length = B.DepthBuffer.length)
    (fun _ => ⟨rfl, rfl⟩) (fun _ _ _ h1 h2 => ⟨h2.1.trans h1.1, h2.2.trans h1.2⟩)
    (fun b a b' hs => shadePixel_length S T a Y b b' hs) _ B B' h

theorem scanTriangle_length (S : TriangleSetup) (T : texture) (B B' : Buffers)
    (h : scanTriangle S T B = some B') :
    B'.FrameBuffer.length = B.FrameBuffer.length ∧
    B'.DepthBuffer.length = B.DepthBuffer.length :=
  foldlM_option_rel (scanRow S T)
    (fun B B' => B'.FrameBuffer.length = B.FrameBuffer.length ∧
      B'.DepthBuffer.length = B.DepthBuffer.length)
    (fun _ => ⟨rfl, rfl⟩) (fun _ _ _ h1 h2 => ⟨h2.1.trans h1.1, h2.2.trans h1.2⟩)
    (fun b a b' hs => scanRow_length S T a b b' hs) _ B B' h

/-! ## Lemmas on the conversions of the fragment stage -/

theorem truncate_of_nonneg (q : ℚ) (h : 0 ≤ q) : truncate q = ⌊q⌋ := by
  unfold truncate
  rw [if_pos h]

theorem castInt64_of_nonneg (q : ℚ) (h0 : 0 ≤ q) (h1 : q < 2 ^ 63) :
    castInt64 q = some ⌊q⌋ := by
  unfold castInt64
  rw [truncate_of_nonneg q h0]
  have hlo : -(2 : ℤ) ^ 63 ≤ ⌊q⌋ := le_trans (by norm_num) (Int.floor_nonneg.mpr h0)
  have hhi : ⌊q⌋ < (2 : ℤ) ^ 63 := by
    rw [Int.floor_lt]
    exact_mod_cast h1
  rw [if_pos ⟨hlo, hhi⟩]

theorem truncate_biased (v : ℚ) (h : -(1 / 2) ≤ v) : truncate v = max 0 ⌊v⌋ := by
  unfold truncate
  by_cases h0 : 0 ≤ v
  · rw [if_pos h0, max_eq_right (Int.floor_nonneg.mpr h0)]
  · rw [if_neg h0]
    have hv : v < 0 := not_le.mp h0
    have hc : ⌈v⌉ = 0 := by
      rw [Int.ceil_eq_iff]
      constructor
      · push_cast
        linarith
      · push_cast
        linarith
    have hf : ⌊v⌋ ≤ 0 := by
      have : ⌊v⌋ < 0 := by
        rw [Int.floor_lt]
        exact_mod_cast hv
      omega
    rw [hc, max_eq_left hf]

theorem castUInt32_biased (f : ℚ) (w : ℤ) (hf0 : 0 ≤ f) (hf1 : f < 1) (hw0 : 1 ≤ w)
    (hw1 : w < 2 ^ 31) :
    castUInt32 (f * (w : ℚ) - 1 / 2) = some (max 0 ⌊f * (w : ℚ) - 1 / 2⌋).toNat := by
  have hwq : (1 : ℚ) ≤ (w : ℚ) := by exact_mod_cast hw0
  have hlow : -(1 / 2 : ℚ) ≤ f * (w : ℚ) - 1 / 2 := by
    have : 0 ≤ f * (w : ℚ) := mul_nonneg hf0 (by linarith)
    linarith
  have hup : f * (w : ℚ) - 1 / 2 < (w : ℚ) := by
    have : f * (w : ℚ) ≤ 1 * (w : ℚ) := mul_le_mul_of_nonneg_right hf1.le (by linarith)
    linarith
  unfold castUInt32
  rw [truncate_biased _ hlow]
  have h0 : (0 : ℤ) ≤ max 0 ⌊f * (w : ℚ) - 1 / 2⌋ := le_max_left _ _
  have h1 : max 0 ⌊f * (w : ℚ) - 1 / 2⌋ < (2 : ℤ) ^ 32 := by
    apply max_lt (by norm_num)
    have : ⌊f * (w : ℚ) - 1 / 2⌋ < w := by
      rw [Int.floor_lt]
      exact hup
    omega
  rw [if_pos ⟨h0, h1⟩]

theorem texelIndices_of_nonneg (N : Vec3) (T : texture) (s t : ℚ)
    (hW : 1 ≤ T.m_Width) (hW' : T.m_Width < 2 ^ 31)
    (hH : 1 ≤ T.m_Height) (hH' : T.m_Height < 2 ^ 31)
    (hs : 0 ≤ s) (hs' : s < 2 ^ 63) (ht : 0 ≤ t) (ht' : t < 2 ^ 63) :
    texelIndices ⟨N, ⟨s, t⟩⟩ T
      = some ((max 0 ⌊Int.fract s * (T.m_Width : ℚ) - 1 / 2⌋).toNat,
              (max 0 ⌊Int.fract t * (T.m_Height : ℚ) - 1 / 2⌋).toNat) := by
  unfold texelIndices
  simp only [castInt64_of_nonneg s hs hs', castInt64_of_nonneg t ht ht']
  have es : s - (⌊s⌋ : ℚ) = Int.fract s := rfl
  have et : t - (⌊t⌋ : ℚ) = Int.fract t := rfl
  rw [es, et, castUInt32_biased _ _ (Int.fract_nonneg s) (Int.fract_lt_one s) hW hW',
    castUInt32_biased _ _ (Int.fract_nonneg t) (Int.fract_lt_one t) hH hH']

theorem castInt64_add_nat (s : ℚ) (k : ℕ) (hs : 0 ≤ s) (hsk : s + (k : ℚ) < 2 ^ 63) :
    castInt64 (s + (k : ℚ)) = some (⌊s⌋ + (k : ℤ)) ∧ castInt64 s = some ⌊s⌋ := by
  have hk : (0 : ℚ) ≤ (k : ℚ) := Nat.cast_nonneg k
  constructor
  · rw [castInt64_of_nonneg _ (by linarith) hsk, Int.floor_add_nat]
  · exact castInt64_of_nonneg s hs (by linarith)

theorem texelIndices_wrap (N : Vec3) (T : texture) (s t : ℚ) (k l : ℕ)
    (hs : 0 ≤ s) (ht : 0 ≤ t) (hsk : s + (k : ℚ) < 2 ^ 63) (htl : t + (l : ℚ) < 2 ^ 63) :
    texelIndices ⟨N, ⟨s + (k : ℚ), t + (l : ℚ)⟩⟩ T = texelIndices ⟨N, ⟨s, t⟩⟩ T := by
  obtain ⟨hs1, hs2⟩ := castInt64_add_nat s k hs hsk
  obtain ⟨ht1, ht2⟩ := castInt64_add_nat t l ht htl
  have es : s + (k : ℚ) - ((⌊s⌋ + (k : ℤ) : ℤ) : ℚ) = s - (⌊s⌋ : ℚ) := by
    push_cast
    ring
  have et : t + (l : ℚ) - ((⌊t⌋ + (l : ℤ) : ℤ) : ℚ) = t - (⌊t⌋ : ℚ) := by
    push_cast
    ring
  unfold texelIndices
  simp only [hs1, hs2, ht1, ht2, es, et]

/-! ## Lemmas on the normalised edge functions -/

theorem edgeValue_divScalar (E s : Vec3) (d : ℚ) :
    edgeValue (E.divScalar d) s = edgeValue E s / d := by
  simp only [edgeValue, Vec3.divScalar]
  ring

theorem EdgeFunction_divScalar (E s : Vec3) (d : ℚ) (hd : 0 < d) :
    EdgeFunction (E.divScalar d) s = EdgeFunction E s := by
  have h1 := EdgeFunction_eq_true_iff (E.divScalar d) s
  have h2 := EdgeFunction_eq_true_iff E s
  rw [edgeValue_divScalar] at h1
  have hx : (E.divScalar d).x = E.x / d := rfl
  have hy : (E.divScalar d).y = E.y / d := rfl
  rw [hx, hy] at h1
  have e1 : edgeValue E s / d > 0 ↔ edgeValue E s > 0 := div_pos_iff_of_pos_right hd
  have e2 : edgeValue E s / d = 0 ↔ edgeValue E s = 0 := by
    rw [div_eq_zero_iff]
    exact ⟨fun h => h.resolve_right hd.ne', fun h => Or.inl h⟩
  have e3 : E.x / d > 0 ↔ E.x > 0 := div_pos_iff_of_pos_right hd
  have e4 : E.x / d = 0 ↔ E.x = 0 := by
    rw [div_eq_zero_iff]
    exact ⟨fun h => h.resolve_right hd.ne', fun h => Or.inl h⟩
  have e5 : E.y / d ≥ 0 ↔ E.y ≥ 0 := by
    constructor
    · intro h
      by_contra hn
      have : E.y / d < 0 := div_neg_of_neg_of_pos (not_le.mp hn) hd
      exact absurd h (not_le.mpr this)
    · intro h
      exact div_nonneg h hd.le
  rw [e1, e2, e3, e4, e5, ← h2] at h1
  cases hA : EdgeFunction (E.divScalar d) s <;> cases hB : EdgeFunction E s <;>
    simp [hA, hB] at h1 ⊢

theorem edgeValue_nonneg_of_EdgeFunction (E s : Vec3) (h : EdgeFunction E s = true) :
    0 ≤ edgeValue E s := by
  rcases (EdgeFunction_eq_true_iff E s).mp h with h | ⟨h, -⟩
  · exact h.le
  · exact h.ge

theorem inverse_columns (m : Mat3) :
    (inverse m).c0 = (inverse m).mulVec ⟨1, 0, 0⟩ ∧
    (inverse m).c1 = (inverse m).mulVec ⟨0, 1, 0⟩ ∧
    (inverse m).c2 = (inverse m).mulVec ⟨0, 0, 1⟩ := by
  refine ⟨?_, ?_, ?_⟩ <;> simp [Mat3.mulVec]

theorem mulVec_ones (m : Mat3) (s : Vec3) :
    edgeValue (m.mulVec ⟨1, 1, 1⟩) s = edgeValue m.c0 s + edgeValue m.c1 s + edgeValue m.c2 s := by
  simp only [edgeValue, Mat3.mulVec]
  ring

theorem edgeValues_weighted_sum (v0 v1 v2 : Vec4) (s : Vec3)
    (hdet : determinant (vertexMatrix v0 v1 v2) ≠ 0) :
    edgeValue (inverse (vertexMatrix v0 v1 v2)).c0 s * v0.w
      + edgeValue (inverse (vertexMatrix v0 v1 v2)).c1 s * v1.w
      + edgeValue (inverse (vertexMatrix v0 v1 v2)).c2 s * v2.w = 1 := by
  obtain ⟨x0, y0, z0, w0⟩ := v0
  obtain ⟨x1, y1, z1, w1⟩ := v1
  obtain ⟨x2, y2, z2, w2⟩ := v2
  obtain ⟨sx, sy, sz⟩ := s
  simp only [inverse, vertexMatrix, edgeValue, determinant] at hdet ⊢
  field_simp
  ring

theorem triangleSetup_fields (MVP : Mat4) (VI0 VI1 VI2 : vertex_input)
    (FI0 FI1 FI2 : fragment_input) (S : TriangleSetup)
    (h : triangleSetup MVP VI0 VI1 VI2 FI0 FI1 FI2 = some S) :
    determinant (vertexMatrix (rasterPosition MVP VI0 FI0) (rasterPosition MVP VI1 FI1)
        (rasterPosition MVP VI2 FI2)) < 0 ∧
    S.E0 = (inverse (vertexMatrix (rasterPosition MVP VI0 FI0) (rasterPosition MVP VI1 FI1)
        (rasterPosition MVP VI2 FI2))).c0.divScalar
      (|(inverse (vertexMatrix (rasterPosition MVP VI0 FI0) (rasterPosition MVP VI1 FI1)
          (rasterPosition MVP VI2 FI2))).c0.x|
        + |(inverse (vertexMatrix (rasterPosition MVP VI0 FI0) (rasterPosition MVP VI1 FI1)
          (rasterPosition MVP VI2 FI2))).c0.y|) ∧
    S.E1 = (inverse (vertexMatrix (rasterPosition MVP VI0 FI0) (rasterPosition MVP VI1 FI1)
        (rasterPosition MVP VI2 FI2))).c1.divScalar
      (|(inverse (vertexMatrix (rasterPosition MVP VI0 FI0) (rasterPosition MVP VI1 FI1)
          (rasterPosition MVP VI2 FI2))).c1.x|
        + |(inverse (vertexMatrix (rasterPosition MVP VI0 FI0) (rasterPosition MVP VI1 FI1)
          (rasterPosition MVP VI2 FI2))).c1.y|) ∧
    S.E2 = (inverse (vertexMatrix (rasterPosition MVP VI0 FI0) (rasterPosition MVP VI1 FI1)
        (rasterPosition MVP VI2 FI2))).c2.divScalar
      (|(inverse (vertexMatrix (rasterPosition MVP VI0 FI0) (rasterPosition MVP VI1 FI1)
          (rasterPosition MVP VI2 FI2))).c2.x|
        + |(inverse (vertexMatrix (rasterPosition MVP VI0 FI0) (rasterPosition MVP VI1 FI1)
          (rasterPosition MVP VI2 FI2))).c2.y|) ∧
    S.C = (inverse (vertexMatrix (rasterPosition MVP VI0 FI0) (rasterPosition MVP VI1 FI1)
        (rasterPosition MVP VI2 FI2))).mulVec ⟨1, 1, 1⟩ := by
  simp only [rasterPosition, clipPosition, VS]
  simp only [triangleSetup, VS] at h
  split at h
  · cases h
  · rename_i hdet
    cases h
    exact ⟨not_le.mp hdet, rfl, rfl, rfl, rfl⟩

theorem triangleSetup_isSome_of_det_neg (MVP : Mat4) (VI0 VI1 VI2 : vertex_input)
    (FI0 FI1 FI2 : fragment_input)
    (hdet : determinant (vertexMatrix (rasterPosition MVP VI0 FI0) (rasterPosition MVP VI1 FI1)
        (rasterPosition MVP VI2 FI2)) < 0) :
    ∃ S, triangleSetup MVP VI0 VI1 VI2 FI0 FI1 FI2 = some S := by
  simp only [rasterPosition, clipPosition, VS] at hdet
  simp only [triangleSetup, VS]
  rw [if_neg (not_le.mpr hdet)]
  exact ⟨_, rfl⟩

theorem edgeValue_inverse_column_at_projectedSample (v0 v1 v2 : Vec4) (b0 b1 b2 : ℚ)
    (hdet : determinant (vertexMatrix v0 v1 v2) ≠ 0)
    (hw : blend3 b0 b1 b2 v0.w v1.w v2.w ≠ 0) :
    edgeValue (inverse (vertexMatrix v0 v1 v2)).c0 (projectedSample b0 b1 b2 v0 v1 v2)
      = b0 / blend3 b0 b1 b2 v0.w v1.w v2.w ∧
    edgeValue (inverse (vertexMatrix v0 v1 v2)).c1 (projectedSample b0 b1 b2 v0 v1 v2)
      = b1 / blend3 b0 b1 b2 v0.w v1.w v2.w ∧
    edgeValue (inverse (vertexMatrix v0 v1 v2)).c2 (projectedSample b0 b1 b2 v0 v1 v2)
      = b2 / blend3 b0 b1 b2 v0.w v1.w v2.w := by
  obtain ⟨e0, e1, e2⟩ := inverse_columns (vertexMatrix v0 v1 v2)
  refine ⟨?_, ?_, ?_⟩
  · obtain ⟨h0, h1, h2⟩ := mulVec_inverse_dot v0 v1 v2 ⟨1, 0, 0⟩ hdet
    rw [e0]
    unfold edgeValue
    rw [interpolant_at_projectedSample _ v0 v1 v2 b0 b1 b2 hw, h0, h1, h2]
    simp [blend3]
  · obtain ⟨h0, h1, h2⟩ := mulVec_inverse_dot v0 v1 v2 ⟨0, 1, 0⟩ hdet
    rw [e1]
    unfold edgeValue
    rw [interpolant_at_projectedSample _ v0 v1 v2 b0 b1 b2 hw, h0, h1, h2]
    simp [blend3]
  · obtain ⟨h0, h1, h2⟩ := mulVec_inverse_dot v0 v1 v2 ⟨0, 0, 1⟩ hdet
    rw [e2]
    unfold edgeValue
    rw [interpolant_at_projectedSample _ v0 v1 v2 b0 b1 b2 hw, h0, h1, h2]
    simp [blend3]

theorem column_normaliser_pos (v0 v1 v2 : Vec4)
    (hdet : determinant (vertexMatrix v0 v1 v2) ≠ 0)
    (hw0 : 0 < v0.w) (hw1 : 0 < v1.w) :
    0 < |(inverse (vertexMatrix v0 v1 v2)).c0.x| + |(inverse (vertexMatrix v0 v1 v2)).c0.y| ∧
    0 < |(inverse (vertexMatrix v0 v1 v2)).c1.x| + |(inverse (vertexMatrix v0 v1 v2)).c1.y| ∧
    0 < |(inverse (vertexMatrix v0 v1 v2)).c2.x| + |(inverse (vertexMatrix v0 v1 v2)).c2.y| := by
  obtain ⟨e0, e1, e2⟩ := inverse_columns (vertexMatrix v0 v1 v2)
  have key : ∀ (E : Vec3) (wa wb xa ya xb yb : ℚ), 0 < wa →
      E.x * xa + E.y * ya + E.z * wa = 0 → E.x * xb + E.y * yb + E.z * wb = 1 →
      0 < |E.x| + |E.y| := by
    intro E wa wb xa ya xb yb hwa h0 h1
    by_contra hn
    have hsum : |E.x| + |E.y| = 0 :=
      le_antisymm (not_lt.mp hn) (add_nonneg (abs_nonneg _) (abs_nonneg _))
    have hx : E.x = 0 := by
      have : |E.x| = 0 := by linarith [abs_nonneg E.x, abs_nonneg E.y]
      exact abs_eq_zero.mp this
    have hy : E.y = 0 := by
      have : |E.y| = 0 := by linarith [abs_nonneg E.x, abs_nonneg E.y]
      exact abs_eq_zero.mp this
    rw [hx, hy] at h0 h1
    simp only [zero_mul, zero_add] at h0 h1
    have hz : E.z = 0 := by
      rcases mul_eq_zero.mp h0 with h | h
      · exact h
      · exact absurd h hwa.ne'
    rw [hz] at h1
    simp at h1
  refine ⟨?_, ?_, ?_⟩
  · obtain ⟨h0, h1, -⟩ := mulVec_inverse_dot v0 v1 v2 ⟨1, 0, 0⟩ hdet
    rw [e0]
    exact key _ v1.w v0.w v1.x v1.y v0.x v0.y hw1 h1 h0
  · obtain ⟨h0, h1, -⟩ := mulVec_inverse_dot v0 v1 v2 ⟨0, 1, 0⟩ hdet
    rw [e1]
    exact key _ v0.w v1.w v0.x v0.y v1.x v1.y hw0 h0 h1
  · obtain ⟨h0, -, h2⟩ := mulVec_inverse_dot v0 v1 v2 ⟨0, 0, 1⟩ hdet
    rw [e2]
    exact key _ v0.w v2.w v0.x v0.y v2.x v2.y hw0 h0 h2

/-! ## Lemmas on the texel reads -/

theorem toUInt32_natCast (n : ℕ) (h : n < 2 ^ 32) : toUInt32 (n : ℤ) = n := by
  unfold toUInt32
  have h' : ((n : ℤ)) % (2 : ℤ) ^ 32 = (n : ℤ) :=
    Int.emod_eq_of_lt (Int.natCast_nonneg n) (by exact_mod_cast h)
  rw [h']
  exact Int.toNat_natCast n

theorem texelLocation_le (idxS idxT W C : ℕ) (T : texture)
    (hW : T.m_Width = (W : ℤ)) (hC : T.m_NumChannels = (C : ℤ))
    (hW' : W < 2 ^ 32) (hC' : C < 2 ^ 32) :
    texelLocation idxS idxT T ≤ (idxT * W + idxS) * C := by
  unfold texelLocation
  rw [hW, hC, toUInt32_natCast W hW', toUInt32_natCast C hC']
  exact le_trans (Nat.mod_le _ _) (Nat.mul_le_mul_right C (Nat.mod_le _ _))

theorem texel_offset_bound (idxS idxT W H C : ℕ) (hS : idxS < W) (hT : idxT < H) (hC : 3 ≤ C) :
    (idxT * W + idxS) * C + 3 ≤ W * H * C := by
  have h1 : idxT * W + idxS + 1 ≤ H * W := by
    have : (idxT + 1) * W ≤ H * W := Nat.mul_le_mul_right W hT
    have e : (idxT + 1) * W = idxT * W + W := by ring
    omega
  have h2 : (idxT * W + idxS + 1) * C ≤ H * W * C := Nat.mul_le_mul_right C h1
  have e2 : (idxT * W + idxS + 1) * C = (idxT * W + idxS) * C + C := by ring
  have e3 : H * W * C = W * H * C := by ring
  omega

theorem texelIndex_lt (f : ℚ) (w : ℤ) (hf1 : f < 1) (hw0 : 1 ≤ w) :
    0 ≤ max 0 ⌊f * (w : ℚ) - 1 / 2⌋ ∧ max 0 ⌊f * (w : ℚ) - 1 / 2⌋ < w := by
  have hwq : (1 : ℚ) ≤ (w : ℚ) := by exact_mod_cast hw0
  have hup : f * (w : ℚ) - 1 / 2 < (w : ℚ) := by
    have : f * (w : ℚ) ≤ 1 * (w : ℚ) := mul_le_mul_of_nonneg_right hf1.le (by linarith)
    linarith
  refine ⟨le_max_left _ _, max_lt (by omega) ?_⟩
  rw [Int.floor_lt]
  exact hup

theorem FS_of_reads (I : fragment_input) (T : texture) (idxS idxT : ℕ) (r g b : Fin 256)
    (hi : texelIndices I T = some (idxS, idxT))
    (hr : T.m_Data[texelLocation idxS idxT T]? = some r)
    (hg : T.m_Data[(texelLocation idxS idxT T + 1) % 2 ^ 32]? = some g)
    (hb : T.m_Data[(texelLocation idxS idxT T + 2) % 2 ^ 32]? = some b) :
    FS I T = some ⟨(r.val : ℚ) / 255, (g.val : ℚ) / 255, (b.val : ℚ) / 255⟩ := by
  unfold FS
  rw [hi]
  simp only [hr, hg, hb]
  congr 2 <;> ring

/-! ## Lemmas on the image output -/

theorem foldlM_option_none_of_mem {α β : Type} (f : β → α → Option β) (a : α)
    (ha : ∀ b, f b a = none) :
    ∀ (l : List α) (b : β), a ∈ l → l.foldlM f b = none := by
  intro l
  induction l with
  | nil => intro b h; exact absurd h (List.not_mem_nil a)
  | cons x l ih =>
    intro b h
    simp only [List.foldlM_cons]
    cases hfx : f b x with
    | none => rfl
    | some b1 =>
      rcases List.mem_cons.mp h with rfl | hl
      · rw [ha b] at hfx
        cases hfx
      · exact ih b1 hl

theorem drawMesh_of_missing (MVP : Mat4) (VertexBuffer : List vertex_input)
    (IndexBuffer : List ℕ) (Textures : List (String × texture)) (FI0 FI1 FI2 : fragment_input)
    (B : Buffers) (mesh : Mesh) (h : Textures.lookup mesh.MDiffuseTexName = none) :
    drawMesh MVP VertexBuffer IndexBuffer Textures FI0 FI1 FI2 B mesh = none := by
  unfold drawMesh
  rw [h]

/-! ## Lemmas on the scene loader: index bounds -/

theorem foldlM_option_inv {α β : Type} (f : β → α → Option β) (I : β → Prop)
    (hstep : ∀ b a b', I b → f b a = some b' → I b') :
    ∀ (l : List α) (b b' : β), I b → l.foldlM f b = some b' → I b' := by
  intro l
  induction l with
  | nil =>
    intro b b' hI h
    simp only [List.foldlM_nil] at h
    cases h
    exact hI
  | cons a l ih =>
    intro b b' hI h
    simp only [List.foldlM_cons] at h
    cases hfa : f b a with
    | none => rw [hfa] at h; cases h
    | some b1 =>
      rw [hfa] at h
      exact ih b1 b' (hstep b a b1 hI hfa) h

theorem processIndex_cases (attribs : attrib_t) (st st' : LoaderState) (index : index_t)
    (h : processIndex attribs st index = some st') :
    index.vertex_index ≠ -1 ∧
    ((∃ res, mapFind st.indexedPrims (primOf index) = some res ∧
        st' = { st with IndexBuffer := st.IndexBuffer ++ [res.2] }) ∨
     (mapFind st.indexedPrims (primOf index) = none ∧
        ∃ v, buildVertex attribs index = some v ∧
          st' = { VertexBuffer := st.VertexBuffer ++ [v]
                  IndexBuffer := st.IndexBuffer ++ [st.VertexBuffer.length]
                  indexedPrims := st.indexedPrims ++ [(primOf index, st.VertexBuffer.length)] })) := by
  unfold processIndex at h
  simp only at h
  split at h
  · cases h
  · rename_i hv
    refine ⟨hv, ?_⟩
    cases hf : mapFind st.indexedPrims (primOf index) with
    | some res =>
      rw [hf] at h
      exact Or.inl ⟨res, rfl, (Option.some.inj h).symm⟩
    | none =>
      rw [hf] at h
      cases hb : buildVertex attribs index with
      | none => rw [hb] at h; cases h
      | some v =>
        rw [hb] at h
        exact Or.inr ⟨rfl, v, rfl, (Option.some.inj h).symm⟩

theorem processIndex_indicesInRange (attribs : attrib_t) (st st' : LoaderState)
    (index : index_t) (hI : IndicesInRange st)
    (h : processIndex attribs st index = some st') :
    IndicesInRange st' ∧ st'.IndexBuffer.length = st.IndexBuffer.length + 1 := by
  obtain ⟨hmap, hib⟩ := hI
  rcases (processIndex_cases attribs st st' index h).2 with
    ⟨res, hf, rfl⟩ | ⟨-, v, -, rfl⟩
  · have hres : res ∈ st.indexedPrims := List.mem_of_find?_eq_some hf
    refine ⟨⟨hmap, ?_⟩, by simp⟩
    intro i hi
    rcases List.mem_append.mp hi with hi | hi
    · exact hib i hi
    · rw [List.mem_singleton] at hi
      rw [hi]
      exact hmap res hres
  · refine ⟨⟨?_, ?_⟩, by simp⟩
    · intro e he
      simp only [List.length_append, List.length_singleton]
      rcases List.mem_append.mp he with he | he
      · exact Nat.lt_succ_of_lt (hmap e he)
      · rw [List.mem_singleton] at he
        rw [he]
        exact Nat.lt_succ_self _
    · intro i hi
      simp only [List.length_append, List.length_singleton]
      rcases List.mem_append.mp hi with hi | hi
      · exact Nat.lt_succ_of_lt (hib i hi)
      · rw [List.mem_singleton] at hi
        rw [hi]
        exact Nat.lt_succ_self _

theorem processIndices_indicesInRange (attribs : attrib_t) :
    ∀ (L : List index_t) (st st' : LoaderState), IndicesInRange st →
      L.foldlM (processIndex attribs) st = some st' →
      IndicesInRange st' ∧ st'.IndexBuffer.length = st.IndexBuffer.length + L.length := by
  intro L
  induction L with
  | nil =>
    intro st st' hI h
    simp only [List.foldlM_nil] at h
    cases h
    exact ⟨hI, rfl⟩
  | cons a L ih =>
    intro st st' hI h
    simp only [List.foldlM_cons] at h
    cases hfa : processIndex attribs st a with
    | none => rw [hfa] at h; cases h
    | some st1 =>
      rw [hfa] at h
      obtain ⟨hI1, hlen1⟩ := processIndex_indicesInRange attribs st st1 a hI hfa
      obtain ⟨hI', hlen'⟩ := ih st1 st' hI1 h
      refine ⟨hI', ?_⟩
      rw [hlen', hlen1, List.length_cons]
      omega

theorem processShape_cases (attribs : attrib_t) (materials : List material_t)
    (acc acc' : LoaderState × List Mesh) (shape : shape_t)
    (h : processShape attribs materials acc shape = some acc') :
    ∃ st name, shape.indices.foldlM (processIndex attribs) acc.1 = some st ∧
      acc' = (st, acc.2 ++ [{ MIdxOffset := acc.1.IndexBuffer.length
                              MIdxCount := shape.indices.length
                              MDiffuseTexName := name }]) := by
  unfold processShape at h
  simp only at h
  cases hf : shape.indices.foldlM (processIndex attribs) acc.1 with
  | none => rw [hf] at h; cases h
  | some st =>
    rw [hf] at h
    simp only at h
    split at h
    · cases h
    · split at h
      · cases h
      · split at h
        · cases h
        · exact ⟨st, _, rfl, (Option.some.inj h).symm⟩

theorem processShape_meshRanges (attribs : attrib_t) (materials : List material_t)
    (MeshBuffer0 : List Mesh) (acc acc' : LoaderState × List Mesh) (shape : shape_t)
    (hI : MeshRangesInside MeshBuffer0 acc)
    (h : processShape attribs materials acc shape = some acc') :
    MeshRangesInside MeshBuffer0 acc' := by
  obtain ⟨st, name, hf, rfl⟩ := processShape_cases attribs materials acc acc' shape h
  obtain ⟨hin, news, hnews, hr⟩ := hI
  obtain ⟨hin', hlen⟩ := processIndices_indicesInRange attribs shape.indices acc.1 st hin hf
  refine ⟨hin', news ++ [_], by rw [hnews, List.append_assoc], ?_⟩
  intro m hm
  rcases List.mem_append.mp hm with hm | hm
  · have := hr m hm
    simp only at this ⊢
    omega
  · rw [List.mem_singleton] at hm
    rw [hm]
    simp only
    omega

/-! ## Lemmas on the scene loader: the map of indexed primitives -/

theorem bytesOfUInt32_injective (n m : ℕ) (hn : n < 2 ^ 32) (hm : m < 2 ^ 32)
    (h : bytesOfUInt32 n = bytesOfUInt32 m) : n = m := by
  simp only [bytesOfUInt32, List.cons.injEq, and_true] at h
  omega

/-- C1 (as the spec states it, refuted): on the edge `0*sx + (-1)*sy + 0 = 0` at the
sample `(0, 0, 1)` the value is zero, `a = 0` and `b < 0`, so the spec's rule says
inside, and `EdgeFunction` returns false. -/
theorem C1_spec_tie_rule_fails :
    ¬ (EdgeFunction ⟨0, -1, 0⟩ ⟨0, 0, 1⟩ = true ↔
        ((0 : ℚ) * 0 + (-1) * 0 + 0 > 0 ∨
          ((0 : ℚ) * 0 + (-1) * 0 + 0 = 0 ∧ ((0 : ℚ) > 0 ∨ ((0 : ℚ) = 0 ∧ (-1 : ℚ) < 0))))) := by
  simp [EdgeFunction]

/-- C1 (amended): for every edge equation `(a, b, c)` and sample `(sx, sy, 1)` with
`v = a*sx + b*sy + c`, `EdgeFunction` returns true exactly when `v > 0`, or `v = 0`
and (`a > 0` or (`a = 0` and `b >= 0`)); it returns false in every other case. -/
theorem C1_EdgeFunction_rule (a b c sx sy : ℚ) :
    (EdgeFunction ⟨a, b, c⟩ ⟨sx, sy, 1⟩ = true ↔
        (a * sx + b * sy + c > 0 ∨
          (a * sx + b * sy + c = 0 ∧ (a > 0 ∨ (a = 0 ∧ b ≥ 0))))) ∧
    (EdgeFunction ⟨a, b, c⟩ ⟨sx, sy, 1⟩ = false ↔
        ¬ (a * sx + b * sy + c > 0 ∨
          (a * sx + b * sy + c = 0 ∧ (a > 0 ∨ (a = 0 ∧ b ≥ 0))))) := by
  have key := EdgeFunction_eq_true_iff ⟨a, b, c⟩ ⟨sx, sy, 1⟩
  simp only [edgeValue] at key
  refine ⟨key, ?_⟩
  rw [← key]
  cases EdgeFunction ⟨a, b, c⟩ ⟨sx, sy, 1⟩ <;> simp

/-- C3: in exact arithmetic, for a triangle whose raster vertices `v_j` give a matrix of
determinant `< 0`, and weights `b0, b1, b2` with `b0 + b1 + b2 ≠ 0` and `P.w ≠ 0` for
`P = b0*v_0 + b1*v_1 + b2*v_2`, the setup succeeds and at the sample
`(P.x/P.w, P.y/P.w, 1)` the interpolated depth is `(b0*z_0 + b1*z_1 + b2*z_2)/(b0+b1+b2)`
and the interpolated texture coordinate is `(b0*uv_0 + b1*uv_1 + b2*uv_2)/(b0+b1+b2)`. -/
theorem C3_perspective_correct_interpolation (MVP : Mat4) (VI0 VI1 VI2 : vertex_input) (FI0 FI1 FI2 : fragment_input)
    (b0 b1 b2 : ℚ)
    (hdet : determinant (vertexMatrix (rasterPosition MVP VI0 FI0) (rasterPosition MVP VI1 FI1)
        (rasterPosition MVP VI2 FI2)) < 0)
    (hb : b0 + b1 + b2 ≠ 0)
    (hw : blend3 b0 b1 b2 (rasterPosition MVP VI0 FI0).w (rasterPosition MVP VI1 FI1).w
        (rasterPosition MVP VI2 FI2).w ≠ 0) :
    ∃ S, triangleSetup MVP VI0 VI1 VI2 FI0 FI1 FI2 = some S ∧
      fragmentDepth S (projectedSample b0 b1 b2 (rasterPosition MVP VI0 FI0)
          (rasterPosition MVP VI1 FI1) (rasterPosition MVP VI2 FI2))
        = blend3 b0 b1 b2 (clipPosition MVP VI0 FI0).z (clipPosition MVP VI1 FI1).z
            (clipPosition MVP VI2 FI2).z / (b0 + b1 + b2) ∧
      (fragmentInput S (projectedSample b0 b1 b2 (rasterPosition MVP VI0 FI0)
          (rasterPosition MVP VI1 FI1) (rasterPosition MVP VI2 FI2))).TexCoords
        = ⟨blend3 b0 b1 b2 VI0.TexCoords.s VI1.TexCoords.s VI2.TexCoords.s / (b0 + b1 + b2),
           blend3 b0 b1 b2 VI0.TexCoords.t VI1.TexCoords.t VI2.TexCoords.t / (b0 + b1 + b2)⟩ := by
  have key : ∀ a : Vec3, _ := fun a =>
    interpolated_value _ _ _ a b0 b1 b2 hdet.ne hb hw
  simp only [rasterPosition, clipPosition, VS] at hdet hw key ⊢
  simp only [triangleSetup, VS]
  rw [if_neg (not_le.mpr hdet)]
  refine ⟨_, rfl, ?_, ?_⟩
  · exact key ⟨_, _, _⟩
  · simp only [fragmentInput]
    congr 1 <;> exact key ⟨_, _, _⟩

/-- C3 (witness): the centroid `b0 = b1 = b2 = 1/3` of the triangle with model positions
`(0,0,0)`, `(1,0,1)`, `(0,1,2)` under `demoMVP` (clip `w` equal to 1, 2, 3). -/
theorem C3_perspective_correct_interpolation_witness :
    determinant (vertexMatrix (rasterPosition demoMVP (demoVertex 0 0 0 0 0) demoFI)
        (rasterPosition demoMVP (demoVertex 1 0 1 1 0) demoFI)
        (rasterPosition demoMVP (demoVertex 0 1 2 0 1) demoFI)) < 0 ∧
    (1 / 3 : ℚ) + 1 / 3 + 1 / 3 ≠ 0 ∧
    blend3 (1 / 3) (1 / 3) (1 / 3) (rasterPosition demoMVP (demoVertex 0 0 0 0 0) demoFI).w
        (rasterPosition demoMVP (demoVertex 1 0 1 1 0) demoFI).w
        (rasterPosition demoMVP (demoVertex 0 1 2 0 1) demoFI).w ≠ 0 ∧
    ∃ S, triangleSetup demoMVP (demoVertex 0 0 0 0 0) (demoVertex 1 0 1 1 0)
          (demoVertex 0 1 2 0 1) demoFI demoFI demoFI = some S ∧
      fragmentDepth S (projectedSample (1 / 3) (1 / 3) (1 / 3)
          (rasterPosition demoMVP (demoVertex 0 0 0 0 0) demoFI)
          (rasterPosition demoMVP (demoVertex 1 0 1 1 0) demoFI)
          (rasterPosition demoMVP (demoVertex 0 1 2 0 1) demoFI))
        = blend3 (1 / 3) (1 / 3) (1 / 3) (clipPosition demoMVP (demoVertex 0 0 0 0 0) demoFI).z
            (clipPosition demoMVP (demoVertex 1 0 1 1 0) demoFI).z
            (clipPosition demoMVP (demoVertex 0 1 2 0 1) demoFI).z / (1 / 3 + 1 / 3 + 1 / 3) ∧
      (fragmentInput S (projectedSample (1 / 3) (1 / 3) (1 / 3)
          (rasterPosition demoMVP (demoVertex 0 0 0 0 0) demoFI)
          (rasterPosition demoMVP (demoVertex 1 0 1 1 0) demoFI)
          (rasterPosition demoMVP (demoVertex 0 1 2 0 1) demoFI))).TexCoords
        = ⟨blend3 (1 / 3) (1 / 3) (1 / 3) (demoVertex 0 0 0 0 0).TexCoords.s
              (demoVertex 1 0 1 1 0).TexCoords.s (demoVertex 0 1 2 0 1).TexCoords.s
              / (1 / 3 + 1 / 3 + 1 / 3),
           blend3 (1 / 3) (1 / 3) (1 / 3) (demoVertex 0 0 0 0 0).TexCoords.t
              (demoVertex 1 0 1 1 0).TexCoords.t (demoVertex 0 1 2 0 1).TexCoords.t
              / (1 / 3 + 1 / 3 + 1 / 3)⟩ :=
  ⟨by decide!, by norm_num, by decide!,
   C3_perspective_correct_interpolation demoMVP (demoVertex 0 0 0 0 0) (demoVertex 1 0 1 1 0)
     (demoVertex 0 1 2 0 1) demoFI demoFI demoFI (1 / 3) (1 / 3) (1 / 3)
     (by decide!) (by norm_num) (by decide!)⟩

/-- C4: order independence of the depth test.  At a pixel inside both buffers, with current
depth `d0`, for two fragments that both cover the pixel, with depths `Z1 < Z2`, `Z1 ≤ d0`
and colors `c1`, `c2`, running the per-pixel step for the two fragments in either order
succeeds and leaves `depth[P] = Z1` and `color[P] = c1`. -/
theorem C4_depth_test_order_independent (S1 S2 : TriangleSetup) (T1 T2 : texture) (X Y : ℕ)
    (B : Buffers) (d0 : ℚ) (c1 c2 : Vec3)
    (hF : Y * ScreenWidth + X < B.FrameBuffer.length)
    (hd0 : B.DepthBuffer[Y * ScreenWidth + X]? = some d0)
    (hcov1 : EdgeFunction S1.E0 (sampleLocation X Y) = true ∧
      EdgeFunction S1.E1 (sampleLocation X Y) = true ∧
      EdgeFunction S1.E2 (sampleLocation X Y) = true)
    (hcov2 : EdgeFunction S2.E0 (sampleLocation X Y) = true ∧
      EdgeFunction S2.E1 (sampleLocation X Y) = true ∧
      EdgeFunction S2.E2 (sampleLocation X Y) = true)
    (hc1 : FS (fragmentInput S1 (sampleLocation X Y)) T1 = some c1)
    (hc2 : FS (fragmentInput S2 (sampleLocation X Y)) T2 = some c2)
    (hlt : fragmentDepth S1 (sampleLocation X Y) < fragmentDepth S2 (sampleLocation X Y))
    (hle : fragmentDepth S1 (sampleLocation X Y) ≤ d0) :
    (∃ B12, (shadePixel S1 T1 Y X B).bind (shadePixel S2 T2 Y X) = some B12 ∧
      B12.DepthBuffer[Y * ScreenWidth + X]? = some (fragmentDepth S1 (sampleLocation X Y)) ∧
      B12.FrameBuffer[Y * ScreenWidth + X]? = some c1) ∧
    (∃ B21, (shadePixel S2 T2 Y X B).bind (shadePixel S1 T1 Y X) = some B21 ∧
      B21.DepthBuffer[Y * ScreenWidth + X]? = some (fragmentDepth S1 (sampleLocation X Y)) ∧
      B21.FrameBuffer[Y * ScreenWidth + X]? = some c1) := by
  have hD : Y * ScreenWidth + X < B.DepthBuffer.length := by
    rcases List.getElem?_eq_some.mp hd0 with ⟨h, -⟩
    exact h
  constructor
  · -- fragment 1 first: it is written, then fragment 2 fails the depth test
    rw [shadePixel_of_written S1 T1 X Y B d0 c1 hcov1.1 hcov1.2.1 hcov1.2.2 hd0 hle hc1 hF]
    simp only [Option.some_bind]
    rw [shadePixel_of_rejected S2 T2 X Y _ (fragmentDepth S1 (sampleLocation X Y))
      (by simp [List.getElem?_set_self hD]) (not_le.mpr hlt)]
    exact ⟨_, rfl, by simp [List.getElem?_set_self hD], by simp [List.getElem?_set_self hF]⟩
  · -- fragment 2 first
    by_cases h2 : fragmentDepth S2 (sampleLocation X Y) ≤ d0
    · rw [shadePixel_of_written S2 T2 X Y B d0 c2 hcov2.1 hcov2.2.1 hcov2.2.2 hd0 h2 hc2 hF]
      simp only [Option.some_bind]
      rw [shadePixel_of_written S1 T1 X Y _ (fragmentDepth S2 (sampleLocation X Y)) c1
        hcov1.1 hcov1.2.1 hcov1.2.2 (by simp [List.getElem?_set_self hD]) hlt.le hc1
        (by simpa using hF)]
      exact ⟨_, rfl, by simp [List.getElem?_set_self, hD], by simp [List.getElem?_set_self, hF]⟩
    · rw [shadePixel_of_rejected S2 T2 X Y B d0 hd0 h2]
      simp only [Option.some_bind]
      rw [shadePixel_of_written S1 T1 X Y B d0 c1 hcov1.1 hcov1.2.1 hcov1.2.2 hd0 hle hc1 hF]
      exact ⟨_, rfl, by simp [List.getElem?_set_self hD], by simp [List.getElem?_set_self hF]⟩
/-- C4 (witness): pixel `(500, 250)` of the freshly allocated buffers, covered by the
near triangle (depth `539/2341`, red) and the far triangle (depth `3419/2341`, blue). -/
theorem C4_depth_test_order_independent_witness :
    (250 * ScreenWidth + 500 < initialBuffers.FrameBuffer.length ∧
      initialBuffers.DepthBuffer[250 * ScreenWidth + 500]? = some FLT_MAX ∧
      fragmentDepth demoSetupNear (sampleLocation 500 250)
        < fragmentDepth demoSetupFar (sampleLocation 500 250) ∧
      fragmentDepth demoSetupNear (sampleLocation 500 250) ≤ FLT_MAX) ∧
    ((∃ B12, (shadePixel demoSetupNear demoRed 250 500 initialBuffers).bind
          (shadePixel demoSetupFar demoBlue 250 500) = some B12 ∧
        B12.DepthBuffer[250 * ScreenWidth + 500]?
          = some (fragmentDepth demoSetupNear (sampleLocation 500 250)) ∧
        B12.FrameBuffer[250 * ScreenWidth + 500]? = some ⟨1, 0, 0⟩) ∧
     (∃ B21, (shadePixel demoSetupFar demoBlue 250 500 initialBuffers).bind
          (shadePixel demoSetupNear demoRed 250 500) = some B21 ∧
        B21.DepthBuffer[250 * ScreenWidth + 500]?
          = some (fragmentDepth demoSetupNear (sampleLocation 500 250)) ∧
        B21.FrameBuffer[250 * ScreenWidth + 500]? = some ⟨1, 0, 0⟩)) :=
  have hF : 250 * ScreenWidth + 500 < initialBuffers.FrameBuffer.length := by
    rw [initialBuffers_frame_length]; decide
  have hd0 : initialBuffers.DepthBuffer[250 * ScreenWidth + 500]? = some FLT_MAX :=
    initialBuffers_depth_get _ (by decide)
  have hlt : fragmentDepth demoSetupNear (sampleLocation 500 250)
      < fragmentDepth demoSetupFar (sampleLocation 500 250) := by decide!
  have hle : fragmentDepth demoSetupNear (sampleLocation 500 250) ≤ FLT_MAX := by decide!
  ⟨⟨hF, hd0, hlt, hle⟩,
   C4_depth_test_order_independent demoSetupNear demoSetupFar demoRed demoBlue 500 250
     initialBuffers FLT_MAX ⟨1, 0, 0⟩ ⟨0, 0, 1⟩ hF hd0 (by decide!) (by decide!) (by decide!)
     (by decide!) hlt hle⟩

/-- C5: the equal-depth tie rule.  At a pixel inside both buffers, a covering fragment
whose depth `Z` equals the current depth-buffer value overwrites `color[P]` with its shaded
color and leaves `depth[P] = Z`; a second covering fragment with the same depth, processed
next, overwrites the color again.  More generally, from any buffers whose depth at the
pixel is at least `Z`, processing the two equal-depth fragments in turn leaves the color
of the later one. -/
theorem C5_equal_depth_later_wins (S1 S2 : TriangleSetup) (T1 T2 : texture) (X Y : ℕ)
    (B : Buffers) (c1 c2 : Vec3)
    (hF : Y * ScreenWidth + X < B.FrameBuffer.length)
    (hd : B.DepthBuffer[Y * ScreenWidth + X]? = some (fragmentDepth S1 (sampleLocation X Y)))
    (hcov1 : EdgeFunction S1.E0 (sampleLocation X Y) = true ∧
      EdgeFunction S1.E1 (sampleLocation X Y) = true ∧
      EdgeFunction S1.E2 (sampleLocation X Y) = true)
    (hcov2 : EdgeFunction S2.E0 (sampleLocation X Y) = true ∧
      EdgeFunction S2.E1 (sampleLocation X Y) = true ∧
      EdgeFunction S2.E2 (sampleLocation X Y) = true)
    (hc1 : FS (fragmentInput S1 (sampleLocation X Y)) T1 = some c1)
    (hc2 : FS (fragmentInput S2 (sampleLocation X Y)) T2 = some c2)
    (heq : fragmentDepth S2 (sampleLocation X Y) = fragmentDepth S1 (sampleLocation X Y)) :
    (∃ B1, shadePixel S1 T1 Y X B = some B1 ∧
      B1.FrameBuffer[Y * ScreenWidth + X]? = some c1 ∧
      B1.DepthBuffer[Y * ScreenWidth + X]? = some (fragmentDepth S1 (sampleLocation X Y)) ∧
      ∃ B2, shadePixel S2 T2 Y X B1 = some B2 ∧
        B2.FrameBuffer[Y * ScreenWidth + X]? = some c2 ∧
        B2.DepthBuffer[Y * ScreenWidth + X]? = some (fragmentDepth S1 (sampleLocation X Y))) ∧
    (∀ (B0 : Buffers) (d0 : ℚ), Y * ScreenWidth + X < B0.FrameBuffer.length →
      B0.DepthBuffer[Y * ScreenWidth + X]? = some d0 →
      fragmentDepth S1 (sampleLocation X Y) ≤ d0 →
      ∃ B1 B2, shadePixel S1 T1 Y X B0 = some B1 ∧ shadePixel S2 T2 Y X B1 = some B2 ∧
        B2.FrameBuffer[Y * ScreenWidth + X]? = some c2 ∧
        B2.DepthBuffer[Y * ScreenWidth + X]? = some (fragmentDepth S1 (sampleLocation X Y))) := by
  have key : ∀ (B0 : Buffers) (d0 : ℚ), Y * ScreenWidth + X < B0.FrameBuffer.length →
      B0.DepthBuffer[Y * ScreenWidth + X]? = some d0 →
      fragmentDepth S1 (sampleLocation X Y) ≤ d0 →
      ∃ B1, shadePixel S1 T1 Y X B0 = some B1 ∧
        B1.FrameBuffer[Y * ScreenWidth + X]? = some c1 ∧
        B1.DepthBuffer[Y * ScreenWidth + X]? = some (fragmentDepth S1 (sampleLocation X Y)) ∧
        ∃ B2, shadePixel S2 T2 Y X B1 = some B2 ∧
          B2.FrameBuffer[Y * ScreenWidth + X]? = some c2 ∧
          B2.DepthBuffer[Y * ScreenWidth + X]?
            = some (fragmentDepth S1 (sampleLocation X Y)) := by
    intro B0 d0 hF0 hd0 hle
    have hD0 : Y * ScreenWidth + X < B0.DepthBuffer.length := by
      rcases List.getElem?_eq_some.mp hd0 with ⟨h, -⟩
      exact h
    refine ⟨_, shadePixel_of_written S1 T1 X Y B0 d0 c1 hcov1.1 hcov1.2.1 hcov1.2.2 hd0 hle
      hc1 hF0, by simp [List.getElem?_set_self hF0], by simp [List.getElem?_set_self hD0], ?_⟩
    refine ⟨_, shadePixel_of_written S2 T2 X Y _ (fragmentDepth S1 (sampleLocation X Y)) c2
      hcov2.1 hcov2.2.1 hcov2.2.2 (by simp [List.getElem?_set_self hD0]) heq.le hc2
      (by simpa using hF0), by simp [List.getElem?_set_self, hF0], ?_⟩
    simp [List.getElem?_set_self, hD0, heq]
  refine ⟨key B _ hF hd le_rfl, ?_⟩
  intro B0 d0 hF0 hd0 hle
  obtain ⟨B1, h1, -, -, B2, h2, hc, hz⟩ := key B0 d0 hF0 hd0 hle
  exact ⟨B1, B2, h1, h2, hc, hz⟩

/-- C5 (witness): pixel `(500, 250)`, whose depth entry already holds the depth of the near
triangle there; the near triangle drawn red, then drawn again blue. -/
theorem C5_equal_depth_later_wins_witness :
    (250 * ScreenWidth + 500
        < ({ FrameBuffer := initialBuffers.FrameBuffer
             DepthBuffer := initialBuffers.DepthBuffer.set (250 * ScreenWidth + 500)
               (fragmentDepth demoSetupNear (sampleLocation 500 250)) } : Buffers).FrameBuffer.length ∧
      ({ FrameBuffer := initialBuffers.FrameBuffer
         DepthBuffer := initialBuffers.DepthBuffer.set (250 * ScreenWidth + 500)
           (fragmentDepth demoSetupNear (sampleLocation 500 250)) } : Buffers).DepthBuffer[
          250 * ScreenWidth + 500]? = some (fragmentDepth demoSetupNear (sampleLocation 500 250))) ∧
    (∃ B1, shadePixel demoSetupNear demoRed 250 500
        { FrameBuffer := initialBuffers.FrameBuffer
          DepthBuffer := initialBuffers.DepthBuffer.set (250 * ScreenWidth + 500)
            (fragmentDepth demoSetupNear (sampleLocation 500 250)) } = some B1 ∧
      B1.FrameBuffer[250 * ScreenWidth + 500]? = some ⟨1, 0, 0⟩ ∧
      B1.DepthBuffer[250 * ScreenWidth + 500]?
        = some (fragmentDepth demoSetupNear (sampleLocation 500 250)) ∧
      ∃ B2, shadePixel demoSetupNear demoBlue 250 500 B1 = some B2 ∧
        B2.FrameBuffer[250 * ScreenWidth + 500]? = some ⟨0, 0, 1⟩ ∧
        B2.DepthBuffer[250 * ScreenWidth + 500]?
          = some (fragmentDepth demoSetupNear (sampleLocation 500 250))) :=
  have hF : 250 * ScreenWidth + 500 < initialBuffers.FrameBuffer.length := by
    rw [initialBuffers_frame_length]; decide
  have hD : 250 * ScreenWidth + 500 < initialBuffers.DepthBuffer.length := by
    rw [initialBuffers_depth_length]; decide
  have hd : (initialBuffers.DepthBuffer.set (250 * ScreenWidth + 500)
      (fragmentDepth demoSetupNear (sampleLocation 500 250)))[250 * ScreenWidth + 500]?
      = some (fragmentDepth demoSetupNear (sampleLocation 500 250)) :=
    List.getElem?_set_self hD
  ⟨⟨hF, hd⟩,
   (C5_equal_depth_later_wins demoSetupNear demoSetupNear demoRed demoBlue 500 250
     { FrameBuffer := initialBuffers.FrameBuffer
       DepthBuffer := initialBuffers.DepthBuffer.set (250 * ScreenWidth + 500)
         (fragmentDepth demoSetupNear (sampleLocation 500 250)) }
     ⟨1, 0, 0⟩ ⟨0, 0, 1⟩ hF hd (by decide!) (by decide!) (by decide!) (by decide!) rfl).1⟩

/-- C6: depth-buffer monotonicity.  Whenever a triangle of the render loop has been
processed, the depth buffer has kept its length and every entry is less than or equal to
its value before the triangle; and after a whole render pass every depth entry is less
than or equal to its initial value. -/
theorem C6_depth_buffer_non_increasing (MVP : Mat4) (VertexBuffer : List vertex_input)
    (IndexBuffer : List ℕ) (Textures : List (String × texture)) (FI0 FI1 FI2 : fragment_input)
    (mesh : Mesh) (pTexture : texture) (Idx : ℕ) (B1 B2 : Buffers)
    (Primitives : List Mesh) (B B' : Buffers)
    (htri : drawTriangle MVP VertexBuffer IndexBuffer mesh pTexture FI0 FI1 FI2 B1 Idx = some B2)
    (hrender : render MVP Primitives VertexBuffer IndexBuffer Textures FI0 FI1 FI2 B = some B') :
    DepthNonIncreasing B1.DepthBuffer B2.DepthBuffer ∧
    DepthNonIncreasing B.DepthBuffer B'.DepthBuffer :=
  ⟨drawTriangle_depthNonIncreasing MVP VertexBuffer IndexBuffer mesh pTexture FI0 FI1 FI2
     B1 B2 Idx htri,
   render_depthNonIncreasing MVP Primitives VertexBuffer IndexBuffer Textures FI0 FI1 FI2
     B B' hrender⟩

/-- C6 (witness): the render of the one-triangle scene `demoMesh` on the freshly allocated
buffers runs to completion, and its result is below the initial depth buffer. -/
theorem C6_depth_buffer_non_increasing_witness :
    ∃ B2 B', drawTriangle demoMVP demoVertexBuffer [0, 1, 2] demoMesh demoRed demoFI demoFI
        demoFI initialBuffers 0 = some B2 ∧
      render demoMVP [demoMesh] demoVertexBuffer [0, 1, 2] [("red", demoRed)] demoFI demoFI
        demoFI initialBuffers = some B' ∧
      DepthNonIncreasing initialBuffers.DepthBuffer B2.DepthBuffer ∧
      DepthNonIncreasing initialBuffers.DepthBuffer B'.DepthBuffer := by
  obtain ⟨R, hR⟩ := demo_scanTriangle_succeeds
  have h2 := demo_drawTriangle_eq.trans hR
  have h' := demo_render_eq.trans hR
  exact ⟨R, R, h2, h', C6_depth_buffer_non_increasing demoMVP demoVertexBuffer [0, 1, 2]
    [("red", demoRed)] demoFI demoFI demoFI demoMesh demoRed 0 initialBuffers R [demoMesh]
    initialBuffers R h2 h'⟩

/-- C7: a triangle whose matrix of raster `(x, y, w)` coordinates has determinant `≥ 0` is
discarded: no set-up is produced and processing the triangle returns both buffers
unchanged. -/
theorem C7_backface_cull_no_writes (MVP : Mat4) (VI0 VI1 VI2 : vertex_input)
    (FI0 FI1 FI2 : fragment_input) (pTexture : texture) (B : Buffers)
    (hdet : determinant (vertexMatrix (rasterPosition MVP VI0 FI0) (rasterPosition MVP VI1 FI1)
        (rasterPosition MVP VI2 FI2)) ≥ 0) :
    triangleSetup MVP VI0 VI1 VI2 FI0 FI1 FI2 = none ∧
    processTriangle MVP VI0 VI1 VI2 FI0 FI1 FI2 pTexture B = some B := by
  have h : triangleSetup MVP VI0 VI1 VI2 FI0 FI1 FI2 = none := by
    simp only [rasterPosition, clipPosition, VS] at hdet
    simp only [triangleSetup, VS]
    rw [if_pos hdet]
  refine ⟨h, ?_⟩
  unfold processTriangle
  rw [h]

/-- C7 (witness): the demo triangle with two vertices exchanged is back-facing
(determinant `129600`), and a triangle with three equal vertices is degenerate
(determinant `0`). -/
theorem C7_backface_cull_no_writes_witness :
    determinant (vertexMatrix (rasterPosition demoMVP (demoVertex 0 0 0 0 0) demoFI)
        (rasterPosition demoMVP (demoVertex 0 1 2 0 1) demoFI)
        (rasterPosition demoMVP (demoVertex 1 0 1 1 0) demoFI)) ≥ 0 ∧
    (triangleSetup demoMVP (demoVertex 0 0 0 0 0) (demoVertex 0 1 2 0 1) (demoVertex 1 0 1 1 0)
        demoFI demoFI demoFI = none ∧
      processTriangle demoMVP (demoVertex 0 0 0 0 0) (demoVertex 0 1 2 0 1)
        (demoVertex 1 0 1 1 0) demoFI demoFI demoFI demoRed initialBuffers
        = some initialBuffers) ∧
    determinant (vertexMatrix (rasterPosition demoMVP (demoVertex 0 0 0 0 0) demoFI)
        (rasterPosition demoMVP (demoVertex 0 0 0 0 0) demoFI)
        (rasterPosition demoMVP (demoVertex 0 0 0 0 0) demoFI)) ≥ 0 ∧
    (triangleSetup demoMVP (demoVertex 0 0 0 0 0) (demoVertex 0 0 0 0 0) (demoVertex 0 0 0 0 0)
        demoFI demoFI demoFI = none ∧
      processTriangle demoMVP (demoVertex 0 0 0 0 0) (demoVertex 0 0 0 0 0)
        (demoVertex 0 0 0 0 0) demoFI demoFI demoFI demoRed initialBuffers
        = some initialBuffers) :=
  ⟨by decide!,
   C7_backface_cull_no_writes demoMVP (demoVertex 0 0 0 0 0) (demoVertex 0 1 2 0 1)
     (demoVertex 1 0 1 1 0) demoFI demoFI demoFI demoRed initialBuffers (by decide!),
   by decide!,
   C7_backface_cull_no_writes demoMVP (demoVertex 0 0 0 0 0) (demoVertex 0 0 0 0 0)
     (demoVertex 0 0 0 0 0) demoFI demoFI demoFI demoRed initialBuffers (by decide!)⟩

/-- C8: color and depth are updated together.  For a surviving triangle with set-up `S`,
scanned over buffers of length `ScreenWidth * ScreenHeight`: both buffers keep that
length; at every pixel `(X, Y)`, with `d` and `c0` the entries before the scan, when the
three edge tests are true and the interpolated `Z ≤ d` the entries after the scan are `Z`
and the color returned by `FS`, and otherwise they are `d` and `c0`; and every single
per-pixel step either returns the buffers as they are or writes both of them at the
pixel's index. -/
theorem C8_color_and_depth_written_together (MVP : Mat4) (VI0 VI1 VI2 : vertex_input)
    (FI0 FI1 FI2 : fragment_input) (S : TriangleSetup) (pTexture : texture) (B B' : Buffers)
    (hF : B.FrameBuffer.length = ScreenWidth * ScreenHeight)
    (hD : B.DepthBuffer.length = ScreenWidth * ScreenHeight)
    (hS : triangleSetup MVP VI0 VI1 VI2 FI0 FI1 FI2 = some S)
    (h : processTriangle MVP VI0 VI1 VI2 FI0 FI1 FI2 pTexture B = some B') :
    (B'.FrameBuffer.length = ScreenWidth * ScreenHeight ∧
      B'.DepthBuffer.length = ScreenWidth * ScreenHeight) ∧
    (∀ X Y, X < ScreenWidth → Y < ScreenHeight →
      ∃ (d : ℚ) (c0 : Vec3), B.DepthBuffer[Y * ScreenWidth + X]? = some d ∧
        B.FrameBuffer[Y * ScreenWidth + X]? = some c0 ∧
        (((EdgeFunction S.E0 (sampleLocation X Y) = true ∧
              EdgeFunction S.E1 (sampleLocation X Y) = true ∧
              EdgeFunction S.E2 (sampleLocation X Y) = true) ∧
            fragmentDepth S (sampleLocation X Y) ≤ d) →
          ∃ c, FS (fragmentInput S (sampleLocation X Y)) pTexture = some c ∧
            B'.DepthBuffer[Y * ScreenWidth + X]? = some (fragmentDepth S (sampleLocation X Y)) ∧
            B'.FrameBuffer[Y * ScreenWidth + X]? = some c) ∧
        (¬ ((EdgeFunction S.E0 (sampleLocation X Y) = true ∧
              EdgeFunction S.E1 (sampleLocation X Y) = true ∧
              EdgeFunction S.E2 (sampleLocation X Y) = true) ∧
            fragmentDepth S (sampleLocation X Y) ≤ d) →
          B'.DepthBuffer[Y * ScreenWidth + X]? = some d ∧
          B'.FrameBuffer[Y * ScreenWidth + X]? = some c0)) ∧
    (∀ X Y B0 B1, shadePixel S pTexture Y X B0 = some B1 →
      B1 = B0 ∨
      ∃ c, FS (fragmentInput S (sampleLocation X Y)) pTexture = some c ∧
        B1.DepthBuffer = B0.DepthBuffer.set (Y * ScreenWidth + X)
          (fragmentDepth S (sampleLocation X Y)) ∧
        B1.FrameBuffer = B0.FrameBuffer.set (Y * ScreenWidth + X) c) := by
  have hscan : scanTriangle S pTexture B = some B' := by
    unfold processTriangle at h
    rw [hS] at h
    exact h
  obtain ⟨hlenF, hlenD⟩ := scanTriangle_length S pTexture B B' hscan
  refine ⟨⟨hlenF.trans hF, hlenD.trans hD⟩, ?_, ?_⟩
  · intro X Y hX hY
    have hi := pixelIndex_lt X Y hX hY
    have hiD : Y * ScreenWidth + X < B.DepthBuffer.length := by rw [hD]; exact hi
    have hiF : Y * ScreenWidth + X < B.FrameBuffer.length := by rw [hF]; exact hi
    have hd : B.DepthBuffer[Y * ScreenWidth + X]? = some B.DepthBuffer[Y * ScreenWidth + X] :=
      List.getElem?_eq_getElem hiD
    have hc0 : B.FrameBuffer[Y * ScreenWidth + X]? = some B.FrameBuffer[Y * ScreenWidth + X] :=
      List.getElem?_eq_getElem hiF
    have hout := scanTriangle_effect S pTexture B B' hscan X Y hX hY
      B.DepthBuffer[Y * ScreenWidth + X] B.FrameBuffer[Y * ScreenWidth + X]
      (by simp only [entryAt, hd, hc0])
    refine ⟨_, _, hd, hc0, ?_, ?_⟩
    · intro hc
      obtain ⟨c, hfs, he⟩ := hout.1 hc
      simp only [entryAt, Prod.mk.injEq] at he
      exact ⟨c, hfs, he.1, he.2⟩
    · intro hn
      have he := hout.2 hn
      simp only [entryAt, Prod.mk.injEq] at he
      exact he
  · intro X Y B0 B1 hs
    rcases shadePixel_cases S pTexture X Y B0 B1 hs with rfl | ⟨-, d, c, -, -, hc, -, rfl⟩
    · exact Or.inl rfl
    · exact Or.inr ⟨c, hc, rfl, rfl⟩

/-- C8 (witness): the demo triangle scanned over the freshly allocated buffers.  The scan
completes; pixel `(500, 250)`, inside the triangle, receives the depth `539/2341` and the
red texel, and pixel `(0, 0)`, outside it, keeps `FLT_MAX` and black. -/
theorem C8_color_and_depth_written_together_witness :
    ∃ B', processTriangle demoMVP (demoVertex 0 0 0 0 0) (demoVertex 1 0 1 0 0)
        (demoVertex 0 1 2 0 0) demoFI demoFI demoFI demoRed initialBuffers = some B' ∧
      (B'.FrameBuffer.length = ScreenWidth * ScreenHeight ∧
        B'.DepthBuffer.length = ScreenWidth * ScreenHeight) ∧
      (B'.DepthBuffer[250 * ScreenWidth + 500]? = some (539 / 2341) ∧
        B'.FrameBuffer[250 * ScreenWidth + 500]? = some ⟨1, 0, 0⟩) ∧
      (B'.DepthBuffer[0 * ScreenWidth + 0]? = some FLT_MAX ∧
        B'.FrameBuffer[0 * ScreenWidth + 0]? = some ⟨0, 0, 0⟩) := by
  obtain ⟨R, hR⟩ := demo_scanTriangle_succeeds
  have hP : processTriangle demoMVP (demoVertex 0 0 0 0 0) (demoVertex 1 0 1 0 0)
      (demoVertex 0 1 2 0 0) demoFI demoFI demoFI demoRed initialBuffers = some R := by
    unfold processTriangle
    rw [demoSetupFlat_eq]
    exact hR
  obtain ⟨hlen, hpix, -⟩ := C8_color_and_depth_written_together demoMVP (demoVertex 0 0 0 0 0)
    (demoVertex 1 0 1 0 0) (demoVertex 0 1 2 0 0) demoFI demoFI demoFI demoSetupFlat demoRed
    initialBuffers R initialBuffers_frame_length initialBuffers_depth_length demoSetupFlat_eq hP
  refine ⟨R, hP, hlen, ?_, ?_⟩
  · obtain ⟨d, c0, hd, -, hin, -⟩ := hpix 500 250 (by decide) (by decide)
    rw [initialBuffers_depth_get _ (by decide)] at hd
    cases hd
    obtain ⟨c, hc, h1, h2⟩ := hin (by decide!)
    rw [demoSetupFlat_FS 500 250] at hc
    cases hc
    have hz : fragmentDepth demoSetupFlat (sampleLocation 500 250) = 539 / 2341 := by decide!
    rw [hz] at h1
    exact ⟨h1, h2⟩
  · obtain ⟨d, c0, hd, hc0, -, hout⟩ := hpix 0 0 (by decide) (by decide)
    rw [initialBuffers_depth_get _ (by decide)] at hd
    rw [initialBuffers_frame_get _ (by decide)] at hc0
    cases hd
    cases hc0
    exact hout (by decide!)

/-- C9 (as the spec states it, refuted): with `s = 0` and `k = 2^63` the coordinate
`s + k` does not convert to `int64_t`, so `FS` at `(s + k, t)` is undefined while `FS` at
`(s, t)` returns the texel. -/
theorem C9_wrap_fails_beyond_int64 :
    FS ⟨⟨0, 0, 0⟩, ⟨0 + ((2 ^ 63 : ℕ) : ℚ), 0 + ((0 : ℕ) : ℚ)⟩⟩ demoRed = none ∧
    FS ⟨⟨0, 0, 0⟩, ⟨0, 0⟩⟩ demoRed = some ⟨1, 0, 0⟩ := by
  constructor <;> decide!

/-- C9 (amended): texture wrap.  For every texture and texture coordinate `(s, t)` with
`s ≥ 0`, `t ≥ 0`, and integers `k, l ≥ 0` with `s + k < 2^63` and `t + l < 2^63`, `FS` at
`(s + k, t + l)` computes the same texel indices and returns the same result as `FS` at
`(s, t)`. -/
theorem C9_texture_wrap (N : Vec3) (T : texture) (s t : ℚ) (k l : ℕ)
    (hs : 0 ≤ s) (ht : 0 ≤ t) (hsk : s + (k : ℚ) < 2 ^ 63) (htl : t + (l : ℚ) < 2 ^ 63) :
    texelIndices ⟨N, ⟨s + (k : ℚ), t + (l : ℚ)⟩⟩ T = texelIndices ⟨N, ⟨s, t⟩⟩ T ∧
    FS ⟨N, ⟨s + (k : ℚ), t + (l : ℚ)⟩⟩ T = FS ⟨N, ⟨s, t⟩⟩ T := by
  have h := texelIndices_wrap N T s t k l hs ht hsk htl
  refine ⟨h, ?_⟩
  unfold FS
  rw [h]

/-- C9 (witness): the coordinates `1.5` and `0.5` on both axes of a 4 x 4 texture read the
texel of column 1 and row 1. -/
theorem C9_texture_wrap_witness :
    ((0 : ℚ) ≤ 1 / 2 ∧ (1 / 2 : ℚ) + ((1 : ℕ) : ℚ) < 2 ^ 63) ∧
    (texelIndices ⟨⟨0, 0, 1⟩, ⟨1 / 2 + ((1 : ℕ) : ℚ), 1 / 2 + ((1 : ℕ) : ℚ)⟩⟩ demoTexture4
        = texelIndices ⟨⟨0, 0, 1⟩, ⟨1 / 2, 1 / 2⟩⟩ demoTexture4 ∧
      FS ⟨⟨0, 0, 1⟩, ⟨1 / 2 + ((1 : ℕ) : ℚ), 1 / 2 + ((1 : ℕ) : ℚ)⟩⟩ demoTexture4
        = FS ⟨⟨0, 0, 1⟩, ⟨1 / 2, 1 / 2⟩⟩ demoTexture4) ∧
    FS ⟨⟨0, 0, 1⟩, ⟨1 / 2, 1 / 2⟩⟩ demoTexture4 = some ⟨15 / 255, 16 / 255, 17 / 255⟩ :=
  ⟨⟨by norm_num, by norm_num⟩,
   C9_texture_wrap ⟨0, 0, 1⟩ demoTexture4 (1 / 2) (1 / 2) 1 1 (by norm_num) (by norm_num)
     (by norm_num) (by norm_num),
   by decide!⟩

/-- C11 (the code at the failing input): `VS` writes only `TexCoords`.  For the vertex with
normal `(0, 0, 1)` and an uninitialised output holding `(7, 7, 7)`, the output's normal
after `VS` is still `(7, 7, 7)`, not the vertex's normal, and the normal interpolant `PNX`
of the triangle set-up is built from those uninitialised values (`M * (7, 7, 7)`), not
from the vertices' normals (`M * (0, 0, 0) = 0`); in general the normal of the output
after `VS` is whatever it was before. -/
theorem C11_VS_leaves_normal_unwritten :
    (demoVertex 0 0 0 0 0).Normal = ⟨0, 0, 1⟩ ∧
    (VS (demoVertex 0 0 0 0 0) demoMVP demoFI).2.Normal = ⟨7, 7, 7⟩ ∧
    (VS (demoVertex 0 0 0 0 0) demoMVP demoFI).2.Normal ≠ (demoVertex 0 0 0 0 0).Normal ∧
    (∃ S, triangleSetup demoMVP (demoVertex 0 0 0 0 0) (demoVertex 1 0 1 1 0)
        (demoVertex 0 1 2 0 1) demoFI demoFI demoFI = some S ∧
      S.PNX = ⟨-7 / 480, 7 / 135, 0⟩ ∧ S.PNX ≠ ⟨0, 0, 0⟩) ∧
    (∀ (Input : vertex_input) (MVP : Mat4) (Output : fragment_input),
      (VS Input MVP Output).2.Normal = Output.Normal ∧
      (VS Input MVP Output).2.TexCoords = Input.TexCoords) := by
  refine ⟨rfl, rfl, by decide!, ⟨demoSetupNear, demoSetupNear_eq, rfl, by decide!⟩, ?_⟩
  intro Input MVP Output
  exact ⟨rfl, rfl⟩

/-- C12: for every clip-space vector `(x, y, z, w)`, `TO_RASTER` returns
`(960*(x+w)/2, 540*(w-y)/2, z, w)`: `z` and `w` are unchanged and no division by `w` is
applied. -/
theorem C12_TO_RASTER_formula (x y z w : ℚ) :
    TO_RASTER ⟨x, y, z, w⟩ = ⟨960 * (x + w) / 2, 540 * (w - y) / 2, z, w⟩ ∧
    (TO_RASTER ⟨x, y, z, w⟩).z = z ∧ (TO_RASTER ⟨x, y, z, w⟩).w = w := by
  refine ⟨?_, rfl, rfl⟩
  simp [TO_RASTER, ScreenWidth, ScreenHeight]

/-- C14 (as the spec states it, refuted): with the registry `[("red", demoRed)]` and a mesh
whose texture name is `blue`, the mesh loop does not return a result for that mesh: the
`Assert` on the null texture pointer stops the program (`none`), and so does the whole
render pass, also when the other mesh of the scene has its texture. -/
theorem C14_missing_texture_stops_render :
    List.lookup demoMeshMissing.MDiffuseTexName [("red", demoRed)] = none ∧
    drawMesh demoMVP demoVertexBuffer [0, 1, 2] [("red", demoRed)] demoFI demoFI demoFI
      initialBuffers demoMeshMissing = none ∧
    render demoMVP [demoMeshMissing, demoMesh] demoVertexBuffer [0, 1, 2] [("red", demoRed)]
      demoFI demoFI demoFI initialBuffers = none := by
  have h : List.lookup demoMeshMissing.MDiffuseTexName [("red", demoRed)] = none := by decide
  refine ⟨h, drawMesh_of_missing _ _ _ _ _ _ _ _ _ h, ?_⟩
  unfold render
  simp only [List.foldlM_cons]
  rw [drawMesh_of_missing _ _ _ _ _ _ _ _ _ h]
  rfl

/-- C14 (amended): when the texture name of a mesh of the scene is not a key of the
texture registry, the body of the mesh loop stops at the `Assert` whatever the buffers are,
before any triangle of the mesh is fetched or rasterized (so no missing texture is ever
sampled), and the render pass as a whole stops there too: it is a process abort, no
failure result is returned and no later mesh is drawn. -/
theorem C14_missing_texture_aborts (MVP : Mat4) (Primitives : List Mesh)
    (VertexBuffer : List vertex_input) (IndexBuffer : List ℕ)
    (Textures : List (String × texture)) (FI0 FI1 FI2 : fragment_input) (B : Buffers)
    (mesh : Mesh) (hmem : mesh ∈ Primitives)
    (hmiss : Textures.lookup mesh.MDiffuseTexName = none) :
    (∀ B0, drawMesh MVP VertexBuffer IndexBuffer Textures FI0 FI1 FI2 B0 mesh = none) ∧
    render MVP Primitives VertexBuffer IndexBuffer Textures FI0 FI1 FI2 B = none :=
  ⟨fun B0 => drawMesh_of_missing MVP VertexBuffer IndexBuffer Textures FI0 FI1 FI2 B0 mesh hmiss,
   foldlM_option_none_of_mem (drawMesh MVP VertexBuffer IndexBuffer Textures FI0 FI1 FI2) mesh
     (fun B0 => drawMesh_of_missing MVP VertexBuffer IndexBuffer Textures FI0 FI1 FI2 B0 mesh
       hmiss) Primitives B hmem⟩

/-- C14 (witness): the scene made of the textured demo mesh followed by the mesh with the
missing texture `blue`. -/
theorem C14_missing_texture_aborts_witness :
    (demoMeshMissing ∈ [demoMesh, demoMeshMissing] ∧
      List.lookup demoMeshMissing.MDiffuseTexName [("red", demoRed)] = none) ∧
    (∀ B0, drawMesh demoMVP demoVertexBuffer [0, 1, 2] [("red", demoRed)] demoFI demoFI demoFI
      B0 demoMeshMissing = none) ∧
    render demoMVP [demoMesh, demoMeshMissing] demoVertexBuffer [0, 1, 2] [("red", demoRed)]
      demoFI demoFI demoFI initialBuffers = none :=
  ⟨⟨by decide, by decide⟩,
   C14_missing_texture_aborts demoMVP [demoMesh, demoMeshMissing] demoVertexBuffer [0, 1, 2]
     [("red", demoRed)] demoFI demoFI demoFI initialBuffers demoMeshMissing (by decide)
     (by decide)⟩

/-- C15: the index-buffer invariant.  When `InitializeSceneObjects` is called with empty
vertex and index buffers and the model loads, every entry of the resulting index buffer is
strictly less than the size of the resulting vertex buffer, and the resulting mesh
buffer is the given one followed by meshes whose range
`[MIdxOffset, MIdxOffset + MIdxCount)` lies inside the index buffer (every mesh, when the
given mesh buffer is empty, as in `main`). -/
theorem C15_index_buffer_invariant (attribs : attrib_t) (shapes : List shape_t)
    (materials : List material_t) (loadImage : String → texture) (MeshBuffer0 : List Mesh)
    (Textures0 : List (String × texture)) (R : Scene)
    (h : InitializeSceneObjects (some (attribs, shapes, materials)) loadImage MeshBuffer0 [] []
      Textures0 = some R) :
    (∀ i ∈ R.IndexBuffer, i < R.VertexBuffer.length) ∧
    (∃ news, R.MeshBuffer = MeshBuffer0 ++ news ∧
      ∀ m ∈ news, m.MIdxOffset + m.MIdxCount ≤ R.IndexBuffer.length) ∧
    (MeshBuffer0 = [] →
      ∀ m ∈ R.MeshBuffer, m.MIdxOffset + m.MIdxCount ≤ R.IndexBuffer.length) := by
  unfold InitializeSceneObjects at h
  simp only at h
  cases hf : shapes.foldlM (processShape attribs materials)
      (({ VertexBuffer := [], IndexBuffer := [], indexedPrims := [] } : LoaderState),
        MeshBuffer0) with
  | none => rw [hf] at h; cases h
  | some acc =>
    rw [hf] at h
    obtain ⟨st, meshes⟩ := acc
    cases h
    have h0 : MeshRangesInside MeshBuffer0
        (({ VertexBuffer := [], IndexBuffer := [], indexedPrims := [] } : LoaderState),
          MeshBuffer0) := by
      refine ⟨⟨?_, ?_⟩, [], by simp, ?_⟩
      · intro e he; exact absurd he (List.not_mem_nil e)
      · intro i hi; exact absurd hi (List.not_mem_nil i)
      · intro m hm; exact absurd hm (List.not_mem_nil m)
    obtain ⟨hin, news, hnews, hr⟩ := foldlM_option_inv (processShape attribs materials)
      (MeshRangesInside MeshBuffer0)
      (fun b a b' hI hs => processShape_meshRanges attribs materials MeshBuffer0 b b' a hI hs)
      shapes _ _ h0 hf
    refine ⟨hin.2, ⟨news, hnews, hr⟩, ?_⟩
    intro hempty m hm
    simp only at hm hnews
    rw [hnews, hempty, List.nil_append] at hm
    exact hr m hm

/-- C15 (witness): the small model of two shapes loads into `demoScene`: five vertices,
index buffer `[0, 1, 2, 0, 2, 3, 2, 4, 0]`, meshes `[0, 6)` and `[6, 9)`. -/
theorem C15_index_buffer_invariant_witness :
    InitializeSceneObjects (some (demoAttribs, [demoShape, demoShape2], demoMaterials))
      (fun _ => demoRed) [] [] [] [] = some demoScene ∧
    (∀ i ∈ demoScene.IndexBuffer, i < demoScene.VertexBuffer.length) ∧
    (∀ m ∈ demoScene.MeshBuffer, m.MIdxOffset + m.MIdxCount ≤ demoScene.IndexBuffer.length) :=
  have h : InitializeSceneObjects (some (demoAttribs, [demoShape, demoShape2], demoMaterials))
      (fun _ => demoRed) [] [] [] [] = some demoScene := by decide!
  ⟨h, (C15_index_buffer_invariant demoAttribs [demoShape, demoShape2] demoMaterials
      (fun _ => demoRed) [] [] demoScene h).1,
    (C15_index_buffer_invariant demoAttribs [demoShape, demoShape2] demoMaterials
      (fun _ => demoRed) [] [] demoScene h).2.2 rfl⟩

/-- C16: edge normalisation preserves coverage.  For every edge equation `E = (a, b, c)`
with `|a| + |b| > 0` and every sample `s`, in exact arithmetic
`EdgeFunction (E / (|a| + |b|)) s = EdgeFunction E s`, also where the edge value is
exactly zero. -/
theorem C16_normalisation_preserves_coverage (E s : Vec3) (h : |E.x| + |E.y| > 0) :
    EdgeFunction (E.divScalar (|E.x| + |E.y|)) s = EdgeFunction E s :=
  EdgeFunction_divScalar E s _ h

/-- C16 (witness): the edge `(0, -2, 540)` at the sample `(7/2, 270, 1)`, where the edge
value is exactly zero: both the edge and its normalised form `(0, -1, 270)` reject it. -/
theorem C16_normalisation_preserves_coverage_witness :
    |(⟨0, -2, 540⟩ : Vec3).x| + |(⟨0, -2, 540⟩ : Vec3).y| > 0 ∧
    edgeValue ⟨0, -2, 540⟩ ⟨7 / 2, 270, 1⟩ = 0 ∧
    EdgeFunction ((⟨0, -2, 540⟩ : Vec3).divScalar
        (|(⟨0, -2, 540⟩ : Vec3).x| + |(⟨0, -2, 540⟩ : Vec3).y|)) ⟨7 / 2, 270, 1⟩
      = EdgeFunction ⟨0, -2, 540⟩ ⟨7 / 2, 270, 1⟩ ∧
    EdgeFunction ⟨0, -2, 540⟩ ⟨7 / 2, 270, 1⟩ = false :=
  ⟨by decide!, by decide!,
   C16_normalisation_preserves_coverage ⟨0, -2, 540⟩ ⟨7 / 2, 270, 1⟩ (by decide!),
   by decide!⟩

/-- C17: coverage matches the triangle's interior.  For a triangle with determinant `< 0`
whose raster vertices `v_j` all have `w_j > 0`, and weights `b0, b1, b2` with
`P = b0*v_0 + b1*v_1 + b2*v_2` and `P.w > 0`, the set-up succeeds and the sample
`(P.x/P.w, P.y/P.w, 1)` passes the three `EdgeFunction` tests on the normalised edges when
`b0, b1, b2` are all `> 0`, and fails at least one of them when some `b_j < 0` (namely
the test of each edge whose weight is negative). -/
theorem C17_coverage_matches_interior (MVP : Mat4) (VI0 VI1 VI2 : vertex_input)
    (FI0 FI1 FI2 : fragment_input) (b0 b1 b2 : ℚ)
    (hdet : determinant (vertexMatrix (rasterPosition MVP VI0 FI0) (rasterPosition MVP VI1 FI1)
        (rasterPosition MVP VI2 FI2)) < 0)
    (hw0 : 0 < (rasterPosition MVP VI0 FI0).w) (hw1 : 0 < (rasterPosition MVP VI1 FI1).w)
    (_hw2 : 0 < (rasterPosition MVP VI2 FI2).w)
    (hw : 0 < blend3 b0 b1 b2 (rasterPosition MVP VI0 FI0).w (rasterPosition MVP VI1 FI1).w
        (rasterPosition MVP VI2 FI2).w) :
    ∃ S, triangleSetup MVP VI0 VI1 VI2 FI0 FI1 FI2 = some S ∧
      ((0 < b0 ∧ 0 < b1 ∧ 0 < b2) →
        EdgeFunction S.E0 (projectedSample b0 b1 b2 (rasterPosition MVP VI0 FI0)
            (rasterPosition MVP VI1 FI1) (rasterPosition MVP VI2 FI2)) = true ∧
        EdgeFunction S.E1 (projectedSample b0 b1 b2 (rasterPosition MVP VI0 FI0)
            (rasterPosition MVP VI1 FI1) (rasterPosition MVP VI2 FI2)) = true ∧
        EdgeFunction S.E2 (projectedSample b0 b1 b2 (rasterPosition MVP VI0 FI0)
            (rasterPosition MVP VI1 FI1) (rasterPosition MVP VI2 FI2)) = true) ∧
      ((b0 < 0 ∨ b1 < 0 ∨ b2 < 0) →
        EdgeFunction S.E0 (projectedSample b0 b1 b2 (rasterPosition MVP VI0 FI0)
            (rasterPosition MVP VI1 FI1) (rasterPosition MVP VI2 FI2)) = false ∨
        EdgeFunction S.E1 (projectedSample b0 b1 b2 (rasterPosition MVP VI0 FI0)
            (rasterPosition MVP VI1 FI1) (rasterPosition MVP VI2 FI2)) = false ∨
        EdgeFunction S.E2 (projectedSample b0 b1 b2 (rasterPosition MVP VI0 FI0)
            (rasterPosition MVP VI1 FI1) (rasterPosition MVP VI2 FI2)) = false) ∧
      (b0 < 0 →
        EdgeFunction S.E0 (projectedSample b0 b1 b2 (rasterPosition MVP VI0 FI0)
            (rasterPosition MVP VI1 FI1) (rasterPosition MVP VI2 FI2)) = false) ∧
      (b1 < 0 →
        EdgeFunction S.E1 (projectedSample b0 b1 b2 (rasterPosition MVP VI0 FI0)
            (rasterPosition MVP VI1 FI1) (rasterPosition MVP VI2 FI2)) = false) ∧
      (b2 < 0 →
        EdgeFunction S.E2 (projectedSample b0 b1 b2 (rasterPosition MVP VI0 FI0)
            (rasterPosition MVP VI1 FI1) (rasterPosition MVP VI2 FI2)) = false) := by
  obtain ⟨S, hS⟩ := triangleSetup_isSome_of_det_neg MVP VI0 VI1 VI2 FI0 FI1 FI2 hdet
  obtain ⟨-, hE0, hE1, hE2, -⟩ := triangleSetup_fields MVP VI0 VI1 VI2 FI0 FI1 FI2 S hS
  obtain ⟨n0, n1, n2⟩ := column_normaliser_pos _ _ _ hdet.ne hw0 hw1
  obtain ⟨v0, v1, v2⟩ := edgeValue_inverse_column_at_projectedSample _ _ _ b0 b1 b2 hdet.ne hw.ne'
  have pos : ∀ (E s : Vec3) (b P : ℚ), 0 < P → edgeValue E s = b / P → 0 < b →
      EdgeFunction E s = true := by
    intro E s b P hP hv hb
    exact (EdgeFunction_eq_true_iff E s).mpr (Or.inl (by rw [hv]; exact div_pos hb hP))
  have neg : ∀ (E s : Vec3) (b P : ℚ), 0 < P → edgeValue E s = b / P → b < 0 →
      EdgeFunction E s = false := by
    intro E s b P hP hv hb
    have hlt : edgeValue E s < 0 := by rw [hv]; exact div_neg_of_neg_of_pos hb hP
    rw [← Bool.not_eq_true, EdgeFunction_eq_true_iff]
    rintro (h | ⟨h, -⟩) <;> linarith
  have f0p := fun hb => (EdgeFunction_divScalar _ _ _ n0).trans (pos _ _ b0 _ hw v0 hb)
  have f1p := fun hb => (EdgeFunction_divScalar _ _ _ n1).trans (pos _ _ b1 _ hw v1 hb)
  have f2p := fun hb => (EdgeFunction_divScalar _ _ _ n2).trans (pos _ _ b2 _ hw v2 hb)
  have f0n := fun hb => (EdgeFunction_divScalar _ _ _ n0).trans (neg _ _ b0 _ hw v0 hb)
  have f1n := fun hb => (EdgeFunction_divScalar _ _ _ n1).trans (neg _ _ b1 _ hw v1 hb)
  have f2n := fun hb => (EdgeFunction_divScalar _ _ _ n2).trans (neg _ _ b2 _ hw v2 hb)
  rw [← hE0] at f0p f0n
  rw [← hE1] at f1p f1n
  rw [← hE2] at f2p f2n
  refine ⟨S, hS, fun h => ⟨f0p h.1, f1p h.2.1, f2p h.2.2⟩, ?_, f0n, f1n, f2n⟩
  rintro (h | h | h)
  · exact Or.inl (f0n h)
  · exact Or.inr (Or.inl (f1n h))
  · exact Or.inr (Or.inr (f2n h))
/-- C17 (witness): the demo triangle (clip `w` equal to 1, 2, 3).  Its centroid
(`b = (1/3, 1/3, 1/3)`) passes the three tests, and the point with weights `(-1, 1, 1)`,
outside the edge opposite vertex 0, fails the test of edge 0. -/
theorem C17_coverage_matches_interior_witness :
    (determinant (vertexMatrix (rasterPosition demoMVP (demoVertex 0 0 0 0 0) demoFI)
        (rasterPosition demoMVP (demoVertex 1 0 1 1 0) demoFI)
        (rasterPosition demoMVP (demoVertex 0 1 2 0 1) demoFI)) < 0 ∧
      0 < (rasterPosition demoMVP (demoVertex 0 0 0 0 0) demoFI).w ∧
      0 < (rasterPosition demoMVP (demoVertex 1 0 1 1 0) demoFI).w ∧
      0 < (rasterPosition demoMVP (demoVertex 0 1 2 0 1) demoFI).w ∧
      0 < blend3 (1 / 3) (1 / 3) (1 / 3) (rasterPosition demoMVP (demoVertex 0 0 0 0 0) demoFI).w
        (rasterPosition demoMVP (demoVertex 1 0 1 1 0) demoFI).w
        (rasterPosition demoMVP (demoVertex 0 1 2 0 1) demoFI).w ∧
      0 < blend3 (-1) 1 1 (rasterPosition demoMVP (demoVertex 0 0 0 0 0) demoFI).w
        (rasterPosition demoMVP (demoVertex 1 0 1 1 0) demoFI).w
        (rasterPosition demoMVP (demoVertex 0 1 2 0 1) demoFI).w) ∧
    (EdgeFunction demoSetupNear.E0 (projectedSample (1 / 3) (1 / 3) (1 / 3)
        (rasterPosition demoMVP (demoVertex 0 0 0 0 0) demoFI)
        (rasterPosition demoMVP (demoVertex 1 0 1 1 0) demoFI)
        (rasterPosition demoMVP (demoVertex 0 1 2 0 1) demoFI)) = true ∧
      EdgeFunction demoSetupNear.E1 (projectedSample (1 / 3) (1 / 3) (1 / 3)
        (rasterPosition demoMVP (demoVertex 0 0 0 0 0) demoFI)
        (rasterPosition demoMVP (demoVertex 1 0 1 1 0) demoFI)
        (rasterPosition demoMVP (demoVertex 0 1 2 0 1) demoFI)) = true ∧
      EdgeFunction demoSetupNear.E2 (projectedSample (1 / 3) (1 / 3) (1 / 3)
        (rasterPosition demoMVP (demoVertex 0 0 0 0 0) demoFI)
        (rasterPosition demoMVP (demoVertex 1 0 1 1 0) demoFI)
        (rasterPosition demoMVP (demoVertex 0 1 2 0 1) demoFI)) = true) ∧
    EdgeFunction demoSetupNear.E0 (projectedSample (-1) 1 1
        (rasterPosition demoMVP (demoVertex 0 0 0 0 0) demoFI)
        (rasterPosition demoMVP (demoVertex 1 0 1 1 0) demoFI)
        (rasterPosition demoMVP (demoVertex 0 1 2 0 1) demoFI)) = false := by
  have hdet : determinant (vertexMatrix (rasterPosition demoMVP (demoVertex 0 0 0 0 0) demoFI)
      (rasterPosition demoMVP (demoVertex 1 0 1 1 0) demoFI)
      (rasterPosition demoMVP (demoVertex 0 1 2 0 1) demoFI)) < 0 := by decide!
  have hw0 : 0 < (rasterPosition demoMVP (demoVertex 0 0 0 0 0) demoFI).w := by decide!
  have hw1 : 0 < (rasterPosition demoMVP (demoVertex 1 0 1 1 0) demoFI).w := by decide!
  have hw2 : 0 < (rasterPosition demoMVP (demoVertex 0 1 2 0 1) demoFI).w := by decide!
  have hwa : 0 < blend3 (1 / 3) (1 / 3) (1 / 3)
      (rasterPosition demoMVP (demoVertex 0 0 0 0 0) demoFI).w
      (rasterPosition demoMVP (demoVertex 1 0 1 1 0) demoFI).w
      (rasterPosition demoMVP (demoVertex 0 1 2 0 1) demoFI).w := by decide!
  have hwb : 0 < blend3 (-1) 1 1 (rasterPosition demoMVP (demoVertex 0 0 0 0 0) demoFI).w
      (rasterPosition demoMVP (demoVertex 1 0 1 1 0) demoFI).w
      (rasterPosition demoMVP (demoVertex 0 1 2 0 1) demoFI).w := by decide!
  obtain ⟨S, hS, hin, -⟩ := C17_coverage_matches_interior demoMVP (demoVertex 0 0 0 0 0)
    (demoVertex 1 0 1 1 0) (demoVertex 0 1 2 0 1) demoFI demoFI demoFI (1 / 3) (1 / 3) (1 / 3)
    hdet hw0 hw1 hw2 hwa
  obtain ⟨S', hS', -, -, hout, -⟩ := C17_coverage_matches_interior demoMVP (demoVertex 0 0 0 0 0)
    (demoVertex 1 0 1 1 0) (demoVertex 0 1 2 0 1) demoFI demoFI demoFI (-1) 1 1
    hdet hw0 hw1 hw2 hwb
  rw [demoSetupNear_eq] at hS hS'
  cases hS
  cases hS'
  exact ⟨⟨hdet, hw0, hw1, hw2, hwa, hwb⟩, hin ⟨by norm_num, by norm_num, by norm_num⟩,
    hout (by norm_num)⟩

/-- C18: the reciprocal-w division is never by zero on a covered sample.  For a surviving
triangle (determinant `< 0`, set-up `S`) whose three edge normalisers `|a_j| + |b_j|`
are non-zero, and every sample `(sx, sy, 1)` at which the three `EdgeFunction` tests
return true, `OneOverW = C.x*sx + C.y*sy + C.z` is strictly positive, so `W = 1/OneOverW`
is positive. -/
theorem C18_OneOverW_positive_on_covered (MVP : Mat4) (VI0 VI1 VI2 : vertex_input)
    (FI0 FI1 FI2 : fragment_input) (S : TriangleSetup) (sx sy : ℚ)
    (hS : triangleSetup MVP VI0 VI1 VI2 FI0 FI1 FI2 = some S)
    (hn0 : |(inverse (vertexMatrix (rasterPosition MVP VI0 FI0) (rasterPosition MVP VI1 FI1)
          (rasterPosition MVP VI2 FI2))).c0.x|
        + |(inverse (vertexMatrix (rasterPosition MVP VI0 FI0) (rasterPosition MVP VI1 FI1)
          (rasterPosition MVP VI2 FI2))).c0.y| ≠ 0)
    (hn1 : |(inverse (vertexMatrix (rasterPosition MVP VI0 FI0) (rasterPosition MVP VI1 FI1)
          (rasterPosition MVP VI2 FI2))).c1.x|
        + |(inverse (vertexMatrix (rasterPosition MVP VI0 FI0) (rasterPosition MVP VI1 FI1)
          (rasterPosition MVP VI2 FI2))).c1.y| ≠ 0)
    (hn2 : |(inverse (vertexMatrix (rasterPosition MVP VI0 FI0) (rasterPosition MVP VI1 FI1)
          (rasterPosition MVP VI2 FI2))).c2.x|
        + |(inverse (vertexMatrix (rasterPosition MVP VI0 FI0) (rasterPosition MVP VI1 FI1)
          (rasterPosition MVP VI2 FI2))).c2.y| ≠ 0)
    (h0 : EdgeFunction S.E0 ⟨sx, sy, 1⟩ = true)
    (h1 : EdgeFunction S.E1 ⟨sx, sy, 1⟩ = true)
    (h2 : EdgeFunction S.E2 ⟨sx, sy, 1⟩ = true) :
    determinant (vertexMatrix (rasterPosition MVP VI0 FI0) (rasterPosition MVP VI1 FI1)
        (rasterPosition MVP VI2 FI2)) < 0 ∧
    0 < S.C.x * sx + S.C.y * sy + S.C.z ∧
    0 < 1 / (S.C.x * sx + S.C.y * sy + S.C.z) := by
  obtain ⟨hdet, hE0, hE1, hE2, hC⟩ := triangleSetup_fields MVP VI0 VI1 VI2 FI0 FI1 FI2 S hS
  have p0 := lt_of_le_of_ne (add_nonneg (abs_nonneg _) (abs_nonneg _)) (Ne.symm hn0)
  have p1 := lt_of_le_of_ne (add_nonneg (abs_nonneg _) (abs_nonneg _)) (Ne.symm hn1)
  have p2 := lt_of_le_of_ne (add_nonneg (abs_nonneg _) (abs_nonneg _)) (Ne.symm hn2)
  rw [hE0, EdgeFunction_divScalar _ _ _ p0] at h0
  rw [hE1, EdgeFunction_divScalar _ _ _ p1] at h1
  rw [hE2, EdgeFunction_divScalar _ _ _ p2] at h2
  have g0 := edgeValue_nonneg_of_EdgeFunction _ _ h0
  have g1 := edgeValue_nonneg_of_EdgeFunction _ _ h1
  have g2 := edgeValue_nonneg_of_EdgeFunction _ _ h2
  have hsum := edgeValues_weighted_sum (rasterPosition MVP VI0 FI0) (rasterPosition MVP VI1 FI1)
    (rasterPosition MVP VI2 FI2) ⟨sx, sy, 1⟩ hdet.ne
  have hC' : S.C.x * sx + S.C.y * sy + S.C.z = edgeValue S.C ⟨sx, sy, 1⟩ := rfl
  have hpos : 0 < S.C.x * sx + S.C.y * sy + S.C.z := by
    rw [hC', hC, mulVec_ones]
    by_contra hn
    have hz : edgeValue (inverse (vertexMatrix (rasterPosition MVP VI0 FI0)
        (rasterPosition MVP VI1 FI1) (rasterPosition MVP VI2 FI2))).c0 ⟨sx, sy, 1⟩ = 0 := by
      linarith
    have hz1 : edgeValue (inverse (vertexMatrix (rasterPosition MVP VI0 FI0)
        (rasterPosition MVP VI1 FI1) (rasterPosition MVP VI2 FI2))).c1 ⟨sx, sy, 1⟩ = 0 := by
      linarith
    have hz2 : edgeValue (inverse (vertexMatrix (rasterPosition MVP VI0 FI0)
        (rasterPosition MVP VI1 FI1) (rasterPosition MVP VI2 FI2))).c2 ⟨sx, sy, 1⟩ = 0 := by
      linarith
    rw [hz, hz1, hz2] at hsum
    simp at hsum
  exact ⟨hdet, hpos, one_div_pos.mpr hpos⟩

/-- C18 (witness): the demo triangle at the sample of pixel `(500, 250)`, which passes the
three tests: there `OneOverW = 2341/2880`. -/
theorem C18_OneOverW_positive_on_covered_witness :
    (EdgeFunction demoSetupNear.E0 ⟨500 + 1 / 2, 250 + 1 / 2, 1⟩ = true ∧
      EdgeFunction demoSetupNear.E1 ⟨500 + 1 / 2, 250 + 1 / 2, 1⟩ = true ∧
      EdgeFunction demoSetupNear.E2 ⟨500 + 1 / 2, 250 + 1 / 2, 1⟩ = true) ∧
    (determinant (vertexMatrix (rasterPosition demoMVP (demoVertex 0 0 0 0 0) demoFI)
        (rasterPosition demoMVP (demoVertex 1 0 1 1 0) demoFI)
        (rasterPosition demoMVP (demoVertex 0 1 2 0 1) demoFI)) < 0 ∧
      0 < demoSetupNear.C.x * (500 + 1 / 2) + demoSetupNear.C.y * (250 + 1 / 2)
        + demoSetupNear.C.z ∧
      0 < 1 / (demoSetupNear.C.x * (500 + 1 / 2) + demoSetupNear.C.y * (250 + 1 / 2)
        + demoSetupNear.C.z)) ∧
    demoSetupNear.C.x * (500 + 1 / 2) + demoSetupNear.C.y * (250 + 1 / 2) + demoSetupNear.C.z
      = 2341 / 2880 :=
  ⟨by decide!,
   C18_OneOverW_positive_on_covered demoMVP (demoVertex 0 0 0 0 0) (demoVertex 1 0 1 1 0)
     (demoVertex 0 1 2 0 1) demoFI demoFI demoFI demoSetupNear (500 + 1 / 2) (250 + 1 / 2)
     demoSetupNear_eq (by decide!) (by decide!) (by decide!) (by decide!) (by decide!)
     (by decide!),
   by decide!⟩

/-- C19 (as the spec states it, refuted): on a one-texel texture with three channels and a
three-byte buffer, at the texture coordinate `(2^63, 0)`, which is `≥ 0`, the conversion
to `int64_t` is undefined: `FS` computes no indices and returns no color. -/
theorem C19_reads_undefined_beyond_int64 :
    (1 ≤ demoRed.m_Width ∧ 1 ≤ demoRed.m_Height ∧ 3 ≤ demoRed.m_NumChannels ∧
      (demoRed.m_Data.length : ℤ) = demoRed.m_Width * demoRed.m_Height * demoRed.m_NumChannels) ∧
    (0 : ℚ) ≤ 2 ^ 63 ∧
    texelIndices ⟨⟨0, 0, 0⟩, ⟨2 ^ 63, 0⟩⟩ demoRed = none ∧
    FS ⟨⟨0, 0, 0⟩, ⟨2 ^ 63, 0⟩⟩ demoRed = none := by
  refine ⟨by decide, by norm_num, by decide!, by decide!⟩

/-- C19 (amended): texel reads are in bounds.  For a texture with width `≥ 1`, height `≥ 1`,
channel count `≥ 3` (all `int32_t` values) and a data buffer of `width*height*channels`
bytes, and a texture coordinate `(s, t)` with `0 ≤ s, t < 2^63`, `FS` computes
`idxS < width` and `idxT < height`, its three byte reads at `TexelLocation`,
`TexelLocation + 1`, `TexelLocation + 2` are inside the buffer, and each returned color
component is the read byte divided by 255 and lies in `[0, 1]`. -/
theorem C19_texel_reads_in_bounds (N : Vec3) (T : texture) (s t : ℚ)
    (hW : 1 ≤ T.m_Width) (hW' : T.m_Width < 2 ^ 31)
    (hH : 1 ≤ T.m_Height) (hH' : T.m_Height < 2 ^ 31)
    (hC : 3 ≤ T.m_NumChannels) (hC' : T.m_NumChannels < 2 ^ 31)
    (hData : (T.m_Data.length : ℤ) = T.m_Width * T.m_Height * T.m_NumChannels)
    (hs : 0 ≤ s) (hs' : s < 2 ^ 63) (ht : 0 ≤ t) (ht' : t < 2 ^ 63) :
    ∃ (idxS idxT : ℕ) (r g b : Fin 256),
      texelIndices ⟨N, ⟨s, t⟩⟩ T = some (idxS, idxT) ∧
      (idxS : ℤ) < T.m_Width ∧ (idxT : ℤ) < T.m_Height ∧
      texelLocation idxS idxT T + 2 < T.m_Data.length ∧
      T.m_Data[texelLocation idxS idxT T]? = some r ∧
      T.m_Data[(texelLocation idxS idxT T + 1) % 2 ^ 32]? = some g ∧
      T.m_Data[(texelLocation idxS idxT T + 2) % 2 ^ 32]? = some b ∧
      FS ⟨N, ⟨s, t⟩⟩ T = some ⟨(r.val : ℚ) / 255, (g.val : ℚ) / 255, (b.val : ℚ) / 255⟩ ∧
      (0 ≤ (r.val : ℚ) / 255 ∧ (r.val : ℚ) / 255 ≤ 1) ∧
      (0 ≤ (g.val : ℚ) / 255 ∧ (g.val : ℚ) / 255 ≤ 1) ∧
      (0 ≤ (b.val : ℚ) / 255 ∧ (b.val : ℚ) / 255 ≤ 1) := by
  have hi := texelIndices_of_nonneg N T s t hW hW' hH hH' hs hs' ht ht'
  obtain ⟨hS0, hS1⟩ := texelIndex_lt (Int.fract s) T.m_Width (Int.fract_lt_one s) hW
  obtain ⟨hT0, hT1⟩ := texelIndex_lt (Int.fract t) T.m_Height (Int.fract_lt_one t) hH
  obtain ⟨W, hWn⟩ := Int.eq_ofNat_of_zero_le (le_trans (by norm_num) hW)
  obtain ⟨H, hHn⟩ := Int.eq_ofNat_of_zero_le (le_trans (by norm_num) hH)
  obtain ⟨C, hCn⟩ := Int.eq_ofNat_of_zero_le (le_trans (by norm_num) hC)
  generalize hidxS : (max 0 ⌊Int.fract s * (T.m_Width : ℚ) - 1 / 2⌋).toNat = idxS at hi
  generalize hidxT : (max 0 ⌊Int.fract t * (T.m_Height : ℚ) - 1 / 2⌋).toNat = idxT at hi
  have hSz : (idxS : ℤ) < T.m_Width := by
    rw [← hidxS, Int.toNat_of_nonneg hS0]
    exact hS1
  have hTz : (idxT : ℤ) < T.m_Height := by
    rw [← hidxT, Int.toNat_of_nonneg hT0]
    exact hT1
  have hSn : idxS < W := by rw [hWn] at hSz; exact_mod_cast hSz
  have hTn : idxT < H := by rw [hHn] at hTz; exact_mod_cast hTz
  have hW32 : W < 2 ^ 32 := by
    have : (W : ℤ) < 2 ^ 31 := by rw [← hWn]; exact hW'
    have : (W : ℤ) < 2 ^ 32 := lt_trans this (by norm_num)
    exact_mod_cast this
  have hC32 : C < 2 ^ 32 := by
    have : (C : ℤ) < 2 ^ 31 := by rw [← hCn]; exact hC'
    have : (C : ℤ) < 2 ^ 32 := lt_trans this (by norm_num)
    exact_mod_cast this
  have hC3 : 3 ≤ C := by
    have : (3 : ℤ) ≤ (C : ℤ) := by rw [← hCn]; exact hC
    exact_mod_cast this
  have hlen : T.m_Data.length = W * H * C := by
    rw [hWn, hHn, hCn] at hData
    exact_mod_cast hData
  have hloc := texelLocation_le idxS idxT W C T hWn hCn hW32 hC32
  have hoff := texel_offset_bound idxS idxT W H C hSn hTn hC3
  have hin : texelLocation idxS idxT T + 2 < T.m_Data.length := by omega
  have h0 : texelLocation idxS idxT T < T.m_Data.length := by omega
  have h1 : (texelLocation idxS idxT T + 1) % 2 ^ 32 < T.m_Data.length :=
    lt_of_le_of_lt (Nat.mod_le _ _) (by omega)
  have h2 : (texelLocation idxS idxT T + 2) % 2 ^ 32 < T.m_Data.length :=
    lt_of_le_of_lt (Nat.mod_le _ _) hin
  have hr := List.getElem?_eq_getElem h0
  have hg := List.getElem?_eq_getElem h1
  have hb := List.getElem?_eq_getElem h2
  have range : ∀ x : Fin 256, 0 ≤ (x.val : ℚ) / 255 ∧ (x.val : ℚ) / 255 ≤ 1 := by
    intro x
    have hx : (x.val : ℚ) ≤ 255 := by
      have : x.val ≤ 255 := by omega
      exact_mod_cast this
    constructor
    · positivity
    · rw [div_le_one (by norm_num)]
      exact hx
  exact ⟨idxS, idxT, _, _, _, hi, hSz, hTz, hin, hr, hg, hb,
    FS_of_reads _ T idxS idxT _ _ _ hi hr hg hb, range _, range _, range _⟩

/-- C19 (witness): the coordinate `(7/4, 1/8)` on the 4 x 4 texture of 48 bytes: column 2,
row 0, bytes 6, 7, 8. -/
theorem C19_texel_reads_in_bounds_witness :
    (1 ≤ demoTexture4.m_Width ∧ demoTexture4.m_Width < 2 ^ 31 ∧
      1 ≤ demoTexture4.m_Height ∧ demoTexture4.m_Height < 2 ^ 31 ∧
      3 ≤ demoTexture4.m_NumChannels ∧ demoTexture4.m_NumChannels < 2 ^ 31 ∧
      (demoTexture4.m_Data.length : ℤ)
        = demoTexture4.m_Width * demoTexture4.m_Height * demoTexture4.m_NumChannels) ∧
    (∃ (idxS idxT : ℕ) (r g b : Fin 256),
      texelIndices ⟨⟨0, 0, 1⟩, ⟨7 / 4, 1 / 8⟩⟩ demoTexture4 = some (idxS, idxT) ∧
      (idxS : ℤ) < demoTexture4.m_Width ∧ (idxT : ℤ) < demoTexture4.m_Height ∧
      texelLocation idxS idxT demoTexture4 + 2 < demoTexture4.m_Data.length ∧
      demoTexture4.m_Data[texelLocation idxS idxT demoTexture4]? = some r ∧
      demoTexture4.m_Data[(texelLocation idxS idxT demoTexture4 + 1) % 2 ^ 32]? = some g ∧
      demoTexture4.m_Data[(texelLocation idxS idxT demoTexture4 + 2) % 2 ^ 32]? = some b ∧
      FS ⟨⟨0, 0, 1⟩, ⟨7 / 4, 1 / 8⟩⟩ demoTexture4
        = some ⟨(r.val : ℚ) / 255, (g.val : ℚ) / 255, (b.val : ℚ) / 255⟩ ∧
      (0 ≤ (r.val : ℚ) / 255 ∧ (r.val : ℚ) / 255 ≤ 1) ∧
      (0 ≤ (g.val : ℚ) / 255 ∧ (g.val : ℚ) / 255 ≤ 1) ∧
      (0 ≤ (b.val : ℚ) / 255 ∧ (b.val : ℚ) / 255 ≤ 1)) ∧
    FS ⟨⟨0, 0, 1⟩, ⟨7 / 4, 1 / 8⟩⟩ demoTexture4 = some ⟨6 / 255, 7 / 255, 8 / 255⟩ :=
  ⟨by decide,
   C19_texel_reads_in_bounds ⟨0, 0, 1⟩ demoTexture4 (7 / 4) (1 / 8) (by decide) (by decide)
     (by decide) (by decide) (by decide) (by decide) (by decide) (by norm_num) (by norm_num)
     (by norm_num) (by norm_num),
   by decide!⟩

end SoftwareRasterizer
